import Mathlib

/-! # Settings surface of the offroad UI

A shallow embedding of `selfdrive/ui/qt/widgets/opkr.h` (the ToggleControl
subclasses) and `selfdrive/ui/qt/offroad/settings.cc` (Device, Software and
Developer panels), followed by the properties of the settings surface that
hold, or fail, on that code.

A stored value is embedded as the text whose UTF-8 encoding is the stored
`std::string` (so stored values are well-formed UTF-8), a `QString` as the text
it holds. Positions in a `std::string` count bytes (`utf8`, `substr`),
positions in a `QString` count UTF-16 code units (`utf16`, `left`).
`fromStdString` is the UTF-8 decoder of Qt; it is applied where the code
converts a result of `substr`, which may cut a character in two. Where the
code converts a whole stored value the text is kept as it is: the decoder
gives the text back (`fromStdString_utf8`) unless it starts with the byte-order
mark U+FEFF. A `double` is embedded as the rational number it denotes, with
exact arithmetic: the roundings of IEEE arithmetic, infinities and NaN are
left out.
-/

namespace Settings

/-! ## Parameter store -/

/-- Modelled from the spec: the persistent key to value store behind `Params`
(`selfdrive/common/params.h` is not among the sources). A key is either absent
or holds a string. -/
abbrev Store := String → Option String

namespace Store

/-- The store with no parameter. -/
def empty : Store := fun _ => none

/-- Modelled from the spec: `get(key) -> bytes|absent`; as in the callers of
`Params().get`, an absent parameter reads as the empty string. -/
def get (p : Store) (key : String) : String := (p key).getD ""

/-- Modelled from the spec: `put(key, value)`. -/
def put (p : Store) (key value : String) : Store :=
  fun k => if k = key then some value else p k

/-- Modelled from the spec: `remove(key)`. -/
def remove (p : Store) (key : String) : Store :=
  fun k => if k = key then none else p k

/-- Modelled from the spec: `putBool(key, bool)`, booleans stored as a
single-byte truthy encoding, "1" or "0". -/
def putBool (p : Store) (key : String) (value : Bool) : Store :=
  p.put key (if value then "1" else "0")

/-- Modelled from the spec: `getBool(key) -> bool`, true exactly when the
stored value is the truthy byte "1". -/
def getBool (p : Store) (key : String) : Bool := p.get key == "1"

end Store

/-! ## Shared UI state, effects and the world the handlers act on -/

/-- The flags of `QUIState::ui_state.scene` written by the toggles of opkr.h
(`selfdrive/ui/ui.h` is not among the sources; only these fields are used). -/
structure UIScene where
  nOpkrBlindSpotDetect : Bool := false
  driving_record : Bool := false
  nDebugUi1 : Bool := false
  nDebugUi2 : Bool := false
  live_tune_panel_enable : Bool := false
  opkr_livetune_ui : Bool := false
  kr_date_show : Bool := false
  kr_time_show : Bool := false
  deriving DecidableEq, Repr

/-- Calls into `Hardware`. -/
inductive HardwareCall where
  | reboot
  | poweroff
  deriving DecidableEq, Repr

/-- What a handler does that is visible outside the widget tree, in the order
it happens. -/
inductive Effect where
  /-- The call `Params().putBool(key, value)` -/
  | paramPutBool (key : String) (value : Bool)
  /-- The call `Params().remove(key)` -/
  | paramRemove (key : String)
  /-- The call `QProcess::execute(program)` -/
  | processExecute (program : String)
  /-- The call `std::system(command)` -/
  | system (command : String)
  /-- Either `Hardware::reboot()` or `Hardware::poweroff()` called in the handler -/
  | hardware (call : HardwareCall)
  /-- The call `QTimer::singleShot(msec, callback)` with a callback making one call -/
  | singleShot (msec : Nat) (call : HardwareCall)
  /-- The statement `emit signal()` -/
  | emitSignal (signal : String)
  /-- The call `fs_watch->addPath(path)` -/
  | addPath (path : String)
  /-- The dialog `ConfirmationDialog::confirm(text, this)` shown -/
  | confirm (text : String)
  /-- The dialog `ConfirmationDialog::alert(text, this)` shown -/
  | alert (text : String)
  /-- The statement `qInfo() << message` -/
  | qInfo (message : String)
  deriving DecidableEq, Repr

/-- Widgets of `SoftwarePanel` whose text the handlers change. -/
structure SoftwarePanel where
  gitRemoteLbl : String := ""
  gitBranchLbl : String := ""
  /-- The text of `gitCommitLbl`, as UTF-16 code units (`QString::left` may cut
  inside a surrogate pair) -/
  gitCommitLbl : List Nat := []
  osVersionLbl : String := ""
  versionLbl : String := ""
  lastUpdateLbl : String := ""
  updateBtnText : String := ""
  updateBtnEnabled : Bool := true
  fs_watch : List String := []
  deriving DecidableEq, Repr

/-- Everything a handler of the settings surface reads or writes. -/
structure World where
  params : Store
  scene : UIScene := {}
  trace : List Effect := []
  software : SoftwarePanel := {}
  resetCalibBtnDescription : String := ""

/-- Exceptions the handlers can meet. -/
inductive Exception where
  /-- The exception `std::out_of_range`, thrown by `std::string::substr` -/
  | out_of_range (what : String)
  /-- The exception `kj::Exception`, thrown by the capnp reader -/
  | kj (description : String)
  deriving DecidableEq, Repr

/-- How a handler ends: it returns, or an exception leaves it; either way
with the world as it stood at that point. -/
inductive Outcome where
  | returned (w : World)
  | threw (e : Exception) (w : World)

namespace Outcome

/-- The world at the end of the handler. -/
def world : Outcome → World
  | returned w => w
  | threw _ w => w

/-- The exception that left the handler, if any. -/
def raised : Outcome → Option Exception
  | returned _ => none
  | threw e _ => some e

/-- Whether the handler ran to its end. -/
def completes (o : Outcome) : Bool := o.raised.isNone

end Outcome

/-- The accessors of `cereal::LiveCalibration::Reader` used by the Device
panel: `calStatus` is `getCalStatus()` and `rpyCalib i` is `getRpyCalib()[i]`,
the float at index `i` of the list as a rational (the code indexes the list
without consulting its length). -/
structure LiveCalibration where
  calStatus : Int
  rpyCalib : Nat → ℚ

/-- What the handlers take from outside opkr.h and settings.cc: the outcome
of external commands, library calls and helpers of other files. -/
structure Env where
  /-- effect on the parameter files of a command run by `std::system` or
  `QProcess::execute` -/
  shell : String → Store → Store
  /-- exit status of such a command, the `int` that `std::system` and
  `QProcess::execute` return -/
  exitStatus : String → Store → Int
  /-- The conversion of a stored text by `Params::get<int>`, `none` when
  the text does not read as an integer -/
  getInt : String → Option Int
  /-- The call `Params::getParamsPath()` -/
  getParamsPath : String
  /-- The call `getBrandVersion()` of `selfdrive/ui/qt/util.h` -/
  getBrandVersion : String
  /-- The call `Hardware::get_os_version()` -/
  get_os_version : String
  /-- The value of `timeAgo(QDateTime::fromString(tm, "yyyy-MM-dd HH:mm:ss"))` at the
  current clock -/
  timeAgo : String → String
  /-- The reader `capnp::FlatArrayMessageReader` over the aligned bytes, then
  `getRoot<cereal::Event>().getLiveCalibration()` -/
  readLiveCalibration : String → Except Exception LiveCalibration
  /-- The call `QString::number(x, 'g', 1)` -/
  number_g1 : ℚ → String

/-! ## String helpers -/

/-- The constant `M_PI` of `<cmath>`: the double nearest to π, which is
884279719003555 / 2^48. -/
def M_PI : ℚ := 884279719003555 / 281474976710656

/-- The UTF-8 encoding of one character. -/
def utf8EncodeChar (c : Char) : List Nat :=
  let n := c.toNat
  if n < 0x80 then [n]
  else if n < 0x800 then [0xC0 + n / 64, 0x80 + n % 64]
  else if n < 0x10000 then [0xE0 + n / 4096, 0x80 + n / 64 % 64, 0x80 + n % 64]
  else [0xF0 + n / 262144, 0x80 + n / 4096 % 64, 0x80 + n / 64 % 64, 0x80 + n % 64]

/-- The bytes of the `std::string` that holds the text `s`. -/
def utf8 (s : String) : List Nat := s.data.flatMap utf8EncodeChar

/-- The UTF-16 encoding of one character: one code unit, or a surrogate pair
above U+FFFF. -/
def utf16EncodeChar (c : Char) : List Nat :=
  let n := c.toNat
  if n < 0x10000 then [n]
  else [0xD800 + (n - 0x10000) / 1024, 0xDC00 + (n - 0x10000) % 1024]

/-- The code units of the `QString` that holds the text `s`. -/
def utf16 (s : String) : List Nat := s.data.flatMap utf16EncodeChar

/-- A continuation byte of UTF-8, `10xxxxxx`. -/
def isContinuation (b : Nat) : Bool := decide (0x80 ≤ b) && decide (b < 0xC0)

/-- The character U+FFFD, which Qt puts for a byte it cannot decode. -/
def replacement : Char := Char.ofNat 0xFFFD

/-- The character encoded at the head of the bytes and the number of bytes it
takes; `none` when the head is not a well-formed, shortest-form encoding of a
character (a stray continuation byte, a truncated or overlong sequence, a
surrogate, a value above U+10FFFF). -/
def decodeOne : List Nat → Option (Char × Nat)
  | b0 :: b1 :: b2 :: b3 :: _ =>
    if b0 < 0x80 then some (Char.ofNat b0, 1)
    else if 0xC0 ≤ b0 ∧ b0 < 0xE0 then
      let uc := (b0 - 0xC0) * 64 + (b1 - 0x80)
      if isContinuation b1 ∧ 0x80 ≤ uc then some (Char.ofNat uc, 2) else none
    else if 0xE0 ≤ b0 ∧ b0 < 0xF0 then
      let uc := (b0 - 0xE0) * 4096 + (b1 - 0x80) * 64 + (b2 - 0x80)
      if isContinuation b1 ∧ isContinuation b2 ∧ 0x800 ≤ uc ∧ ¬ (0xD800 ≤ uc ∧ uc < 0xE000) then
        some (Char.ofNat uc, 3) else none
    else if 0xF0 ≤ b0 ∧ b0 < 0xF5 then
      let uc := (b0 - 0xF0) * 262144 + (b1 - 0x80) * 4096 + (b2 - 0x80) * 64 + (b3 - 0x80)
      if isContinuation b1 ∧ isContinuation b2 ∧ isContinuation b3 ∧ 0x10000 ≤ uc ∧ uc < 0x110000 then
        some (Char.ofNat uc, 4) else none
    else none
  | [b0, b1, b2] =>
    if b0 < 0x80 then some (Char.ofNat b0, 1)
    else if 0xC0 ≤ b0 ∧ b0 < 0xE0 then
      let uc := (b0 - 0xC0) * 64 + (b1 - 0x80)
      if isContinuation b1 ∧ 0x80 ≤ uc then some (Char.ofNat uc, 2) else none
    else if 0xE0 ≤ b0 ∧ b0 < 0xF0 then
      let uc := (b0 - 0xE0) * 4096 + (b1 - 0x80) * 64 + (b2 - 0x80)
      if isContinuation b1 ∧ isContinuation b2 ∧ 0x800 ≤ uc ∧ ¬ (0xD800 ≤ uc ∧ uc < 0xE000) then
        some (Char.ofNat uc, 3) else none
    else none
  | [b0, b1] =>
    if b0 < 0x80 then some (Char.ofNat b0, 1)
    else if 0xC0 ≤ b0 ∧ b0 < 0xE0 then
      let uc := (b0 - 0xC0) * 64 + (b1 - 0x80)
      if isContinuation b1 ∧ 0x80 ≤ uc then some (Char.ofNat uc, 2) else none
    else none
  | [b0] => if b0 < 0x80 then some (Char.ofNat b0, 1) else none
  | [] => none

/-- The decoding loop of Qt's UTF-8 codec: a well-formed sequence gives its
character, any other byte gives U+FFFD and decoding resumes at the next byte.
Every step consumes a byte, so a fuel of the number of bytes is enough. -/
def decodeUtf8 : Nat → List Nat → List Char
  | 0, _ => []
  | _, [] => []
  | fuel + 1, b :: rest =>
    match decodeOne (b :: rest) with
    | some (c, k) => c :: decodeUtf8 fuel ((b :: rest).drop k)
    | none => replacement :: decodeUtf8 fuel rest

/-- The call `QString::fromStdString(bytes)`, that is `QString::fromUtf8`: a byte-order
mark EF BB BF at the start is dropped, the rest is decoded by `decodeUtf8`. -/
def fromStdString (bytes : List Nat) : String :=
  match bytes with
  | 0xEF :: 0xBB :: 0xBF :: rest => String.mk (decodeUtf8 rest.length rest)
  | _ => String.mk (decodeUtf8 bytes.length bytes)

/-- The member `std::string::substr(pos, count)` on the bytes of `s`: throws
`std::out_of_range` when `pos > size()`, otherwise the bytes from `pos`, at most
`count` of them (`none` for the default `npos`). -/
def substr (s : String) (pos : Nat) (count : Option Nat) : Except Exception (List Nat) :=
  if pos > (utf8 s).length then .error (.out_of_range "basic_string::substr")
  else match count with
    | none => .ok ((utf8 s).drop pos)
    | some n => .ok (((utf8 s).drop pos).take n)

/-- The member `QString::left(n)`: the first `n` code units, all of them when the
string is shorter. -/
def left (s : String) (n : Nat) : List Nat := (utf16 s).take n

/-- The test `QChar::isSpace`: the characters U+0009 to U+000D, U+0085, U+00A0
and the separators of the categories Zs, Zl and Zp. -/
def isSpace (c : Char) : Bool :=
  let n := c.toNat
  decide (0x09 ≤ n ∧ n ≤ 0x0D) || decide (n = 0x20) || decide (n = 0x85) || decide (n = 0xA0)
    || decide (n = 0x1680) || decide (0x2000 ≤ n ∧ n ≤ 0x200A) || decide (n = 0x2028)
    || decide (n = 0x2029) || decide (n = 0x202F) || decide (n = 0x205F) || decide (n = 0x3000)

/-- The member `QString::trimmed()`: the characters for which `QChar::isSpace` holds
removed from both ends. -/
def trimmed (s : String) : String :=
  String.mk (((s.data.dropWhile isSpace).reverse.dropWhile isSpace).reverse)

/-- The search behind `QString::contains`, on character lists. -/
def containsChars (hay needle : List Char) : Bool :=
  match hay with
  | [] => needle.isEmpty
  | c :: rest => needle.isPrefixOf (c :: rest) || containsChars rest needle

/-- The member `QString::contains(needle)`. -/
def contains (s needle : String) : Bool := containsChars s.data needle.data

namespace World

/-- A world over the given store, nothing displayed or done yet. -/
def ofStore (p : Store) : World := { params := p }

/-- Appends one effect to the trace. -/
def log (w : World) (e : Effect) : World := { w with trace := w.trace ++ [e] }

/-- The call `Params().putBool(key, value)`. -/
def putBool (w : World) (key : String) (value : Bool) : World :=
  { w with params := w.params.putBool key value, trace := w.trace ++ [.paramPutBool key value] }

/-- The call `Params().remove(key)`. -/
def remove (w : World) (key : String) : World :=
  { w with params := w.params.remove key, trace := w.trace ++ [.paramRemove key] }

/-- The dialog `ConfirmationDialog::confirm(text, this)` is shown; its result is the
handler's `answer` argument. -/
def confirm (w : World) (text : String) : World := w.log (.confirm text)

/-- The value of `std::system(command)`: the exit status, and the world
after the command has run. -/
def systemCall (env : Env) (w : World) (command : String) : Int × World :=
  (env.exitStatus command w.params,
   { w with params := env.shell command w.params, trace := w.trace ++ [.system command] })

/-- The value of `QProcess::execute(program)`: the exit status, and the
world after the program has run. -/
def executeCall (env : Env) (w : World) (program : String) : Int × World :=
  (env.exitStatus program w.params,
   { w with params := env.shell program w.params, trace := w.trace ++ [.processExecute program] })

/-- The statement `std::system(command);`: every call site of settings.cc
drops the returned status. -/
def system (env : Env) (w : World) (command : String) : World :=
  (w.systemCall env command).2

/-- The statement `QProcess::execute(program);`: every call site of
settings.cc drops the returned status. -/
def execute (env : Env) (w : World) (program : String) : World :=
  (w.executeCall env program).2

/-- The call `fs_watch->addPath(path)`: the path joins the watched set unless it is
already there. The set is the one the panel manages through `addPath`; what
Qt does on its own with a path whose file is missing or replaced is not part
of the embedding. -/
def addPath (w : World) (path : String) : World :=
  { w with
    software := { w.software with
      fs_watch := if path ∈ w.software.fs_watch then w.software.fs_watch
                  else w.software.fs_watch ++ [path] },
    trace := w.trace ++ [.addPath path] }

end World

/-! ## The ToggleControl subclasses of opkr.h (lines 31 to 546) -/

/-- The forty classes deriving from `ToggleControl` in opkr.h, in source order. -/
inductive Toggle where
  | SshLegacyToggle
  | GetoffAlertToggle
  | AutoResumeToggle
  | VariableCruiseToggle
  | CruiseGapAdjustToggle
  | AutoEnabledToggle
  | CruiseAutoResToggle
  | BatteryChargingControlToggle
  | BlindSpotDetectToggle
  | MadModeEnabledToggle
  | WhitePandaSupportToggle
  | SteerWarningFixToggle
  | SteerWindDownToggle
  | AutoScreenDimmingToggle
  | LiveSteerRatioToggle
  | VariableSteerMaxToggle
  | VariableSteerDeltaToggle
  | ShaneFeedForward
  | DrivingRecordToggle
  | TurnSteeringDisableToggle
  | HotspotOnBootToggle
  | CruiseOverMaxSpeedToggle
  | DebugUiOneToggle
  | DebugUiTwoToggle
  | LongLogToggle
  | PrebuiltToggle
  | LDWSToggle
  | FPTwoToggle
  | GearDToggle
  | ComIssueToggle
  | RunNaviOnBootToggle
  | BattLessToggle
  | LiveTunePanelToggle
  | KRDateToggle
  | KRTimeToggle
  | LeadCustomToggle
  | RadarLongHelperToggle
  | FCATypeToggle
  | GitPullOnBootToggle
  | StoppingDistAdjToggle
  deriving DecidableEq, Repr

namespace Toggle

/-- The key passed to `Params().getBool` in the constructor's call of the
`ToggleControl` base, which sets the initial displayed state. -/
def ctorKey : Toggle → String
  | .SshLegacyToggle => "OpkrSSHLegacy"
  | .GetoffAlertToggle => "OpkrEnableGetoffAlert"
  | .AutoResumeToggle => "OpkrAutoResume"
  | .VariableCruiseToggle => "OpkrVariableCruise"
  | .CruiseGapAdjustToggle => "CruiseGapAdjust"
  | .AutoEnabledToggle => "AutoEnable"
  | .CruiseAutoResToggle => "CruiseAutoRes"
  | .BatteryChargingControlToggle => "OpkrBatteryChargingControl"
  | .BlindSpotDetectToggle => "OpkrBlindSpotDetect"
  | .MadModeEnabledToggle => "MadModeEnabled"
  | .WhitePandaSupportToggle => "WhitePandaSupport"
  | .SteerWarningFixToggle => "SteerWarningFix"
  | .SteerWindDownToggle => "SteerWindDown"
  | .AutoScreenDimmingToggle => "OpkrAutoScreenDimming"
  | .LiveSteerRatioToggle => "OpkrLiveSteerRatio"
  | .VariableSteerMaxToggle => "OpkrVariableSteerMax"
  | .VariableSteerDeltaToggle => "OpkrVariableSteerDelta"
  | .ShaneFeedForward => "ShaneFeedForward"
  | .DrivingRecordToggle => "OpkrDrivingRecord"
  | .TurnSteeringDisableToggle => "OpkrTurnSteeringDisable"
  | .HotspotOnBootToggle => "OpkrHotspotOnBoot"
  | .CruiseOverMaxSpeedToggle => "CruiseOverMaxSpeed"
  | .DebugUiOneToggle => "DebugUi1"
  | .DebugUiTwoToggle => "DebugUi2"
  | .LongLogToggle => "LongLogDisplay"
  | .PrebuiltToggle => "PutPrebuiltOn"
  | .LDWSToggle => "LdwsCarFix"
  | .FPTwoToggle => "FingerprintTwoSet"
  | .GearDToggle => "JustDoGearD"
  | .ComIssueToggle => "ComIssueGone"
  | .RunNaviOnBootToggle => "OpkrRunNaviOnBoot"
  | .BattLessToggle => "OpkrBattLess"
  | .LiveTunePanelToggle => "OpkrLiveTunePanelEnable"
  | .KRDateToggle => "KRDateShow"
  | .KRTimeToggle => "KRTimeShow"
  | .LeadCustomToggle => "LeadCustom"
  | .RadarLongHelperToggle => "RadarLongHelper"
  | .FCATypeToggle => "FCAType"
  | .GitPullOnBootToggle => "GitPullOnBoot"
  | .StoppingDistAdjToggle => "StoppingDistAdj"

/-- The key passed to `Params().putBool` in the lambda connected to
`toggleFlipped`. -/
def handlerKey : Toggle → String
  | .SshLegacyToggle => "OpkrSSHLegacy"
  | .GetoffAlertToggle => "OpkrEnableGetoffAlert"
  | .AutoResumeToggle => "OpkrAutoResume"
  | .VariableCruiseToggle => "OpkrVariableCruise"
  | .CruiseGapAdjustToggle => "CruiseGapAdjust"
  | .AutoEnabledToggle => "AutoEnable"
  | .CruiseAutoResToggle => "CruiseAutoRes"
  | .BatteryChargingControlToggle => "OpkrBatteryChargingControl"
  | .BlindSpotDetectToggle => "OpkrBlindSpotDetect"
  | .MadModeEnabledToggle => "MadModeEnabled"
  | .WhitePandaSupportToggle => "WhitePandaSupport"
  | .SteerWarningFixToggle => "SteerWarningFix"
  | .SteerWindDownToggle => "SteerWindDown"
  | .AutoScreenDimmingToggle => "OpkrAutoScreenDimming"
  | .LiveSteerRatioToggle => "OpkrLiveSteerRatio"
  | .VariableSteerMaxToggle => "OpkrVariableSteerMax"
  | .VariableSteerDeltaToggle => "OpkrVariableSteerDelta"
  | .ShaneFeedForward => "ShaneFeedForward"
  | .DrivingRecordToggle => "OpkrDrivingRecord"
  | .TurnSteeringDisableToggle => "OpkrTurnSteeringDisable"
  | .HotspotOnBootToggle => "OpkrHotspotOnBoot"
  | .CruiseOverMaxSpeedToggle => "CruiseOverMaxSpeed"
  | .DebugUiOneToggle => "DebugUi1"
  | .DebugUiTwoToggle => "DebugUi2"
  | .LongLogToggle => "LongLogDisplay"
  | .PrebuiltToggle => "PutPrebuiltOn"
  | .LDWSToggle => "LdwsCarFix"
  | .FPTwoToggle => "FingerprintTwoSet"
  | .GearDToggle => "JustDoGearD"
  | .ComIssueToggle => "ComIssueGone"
  | .RunNaviOnBootToggle => "OpkrRunNaviOnBoot"
  | .BattLessToggle => "OpkrBattLess"
  | .LiveTunePanelToggle => "OpkrLiveTunePanelEnable"
  | .KRDateToggle => "KRDateShow"
  | .KRTimeToggle => "KRTimeShow"
  | .LeadCustomToggle => "LeadCustom"
  | .RadarLongHelperToggle => "RadarLongHelper"
  | .FCATypeToggle => "FCAType"
  | .GitPullOnBootToggle => "GitPullOnBoot"
  | .StoppingDistAdjToggle => "StoppingDistAdj"

/-- The assignments into `QUIState::ui_state.scene` made by the handler after
the store write: `if (state) { flag = true; } else { flag = false; }`. Only
seven classes have them. -/
def publish (t : Toggle) (state : Int) (s : UIScene) : UIScene :=
  match t with
  | .BlindSpotDetectToggle =>
    if state != 0 then { s with nOpkrBlindSpotDetect := true }
    else { s with nOpkrBlindSpotDetect := false }
  | .DrivingRecordToggle =>
    if state != 0 then { s with driving_record := true }
    else { s with driving_record := false }
  | .DebugUiOneToggle =>
    if state != 0 then { s with nDebugUi1 := true }
    else { s with nDebugUi1 := false }
  | .DebugUiTwoToggle =>
    if state != 0 then { s with nDebugUi2 := true }
    else { s with nDebugUi2 := false }
  | .LiveTunePanelToggle =>
    if state != 0 then { s with live_tune_panel_enable := true, opkr_livetune_ui := true }
    else { s with live_tune_panel_enable := false, opkr_livetune_ui := false }
  | .KRDateToggle =>
    if state != 0 then { s with kr_date_show := true }
    else { s with kr_date_show := false }
  | .KRTimeToggle =>
    if state != 0 then { s with kr_time_show := true }
    else { s with kr_time_show := false }
  | _ => s

/-- The lambda connected to `toggleFlipped`, taking `int state`:
`bool status = state ? true : false; Params().putBool(key, status);` followed
by the scene assignments of the class, if any. `LeadCustomToggle` declares
`char status`, which holds 1 or 0 and converts back to the same boolean at the
call of `putBool`. -/
def toggleFlipped (t : Toggle) (state : Int) (w : World) : World :=
  let status : Bool := if state != 0 then true else false
  let w := w.putBool t.handlerKey status
  { w with scene := t.publish state w.scene }

/-- The initial state handed to the `ToggleControl` base by the constructor:
`Params().getBool(key)`. -/
def initialState (t : Toggle) (p : Store) : Bool := p.getBool t.ctorKey

end Toggle

/-- Modelled from the spec: the part of the `ToggleControl` base that caches the
rendered value (`selfdrive/ui/qt/widgets/controls.h` is not among the sources).
The control is built with an initial state, and a user input delivers the new
state through `toggleFlipped` while the displayed state becomes that state. -/
structure ToggleControl where
  toggle : Toggle
  displayed : Bool
  deriving DecidableEq, Repr

namespace ToggleControl

/-- Construction of a toggle against a store (also a panel reconstruction). -/
def construct (t : Toggle) (p : Store) : ToggleControl :=
  { toggle := t, displayed := t.initialState p }

/-- A user input: the displayed state becomes `state` and `toggleFlipped(state)`
runs the handler of the class. -/
def onUserInput (c : ToggleControl) (state : Int) (w : World) : ToggleControl × World :=
  ({ c with displayed := state != 0 }, c.toggle.toggleFlipped state w)

end ToggleControl

/-! ## Device panel (settings.cc, `DevicePanel::DevicePanel`) -/

namespace DevicePanel

/-- The static description of the "Reset Calibration" control. -/
def resetCalibDesc : String :=
  "openpilot requires the device to be mounted within 4° left or right and within 5° up or down. openpilot is continuously calibrating, resetting is rarely required."

/-- The lambda connected to `resetCalibBtn`'s `released` (lines 149 to 171);
`answer` is what `ConfirmationDialog::alert` returns. Only `kj::Exception` is
caught. -/
def resetCalibBtn_released (env : Env) (answer : Bool) (w : World) : Outcome :=
  let desc : String := "[Reference value: within L/R 4° and UP/DN 5°]"
  let calib_bytes := w.params.get "CalibrationParams"
  let finish (desc : String) (w : World) : Outcome :=
    let w := w.log (.alert desc)
    if answer then .returned w else .returned w
  if calib_bytes ≠ "" then
    match env.readLiveCalibration calib_bytes with
    | .ok calib =>
      if calib.calStatus != 0 then
        let pitch : ℚ := calib.rpyCalib 1 * (180 / M_PI)
        let yaw : ℚ := calib.rpyCalib 2 * (180 / M_PI)
        finish (desc ++ " Your device is pointed " ++ env.number_g1 |pitch| ++ "° "
          ++ (if pitch > 0 then "↑" else "↓") ++ " and " ++ env.number_g1 |yaw| ++ "° "
          ++ (if yaw > 0 then "→" else "←") ++ ".") w
      else finish desc w
    | .error (.kj _) => finish desc (w.log (.qInfo "invalid CalibrationParams"))
    | .error e => .threw e w
  else finish desc w

/-- The lambda connected to `resetCalibBtn`'s `showDescription` (lines 172 to
192). -/
def resetCalibBtn_showDescription (env : Env) (w : World) : Outcome :=
  let desc : String := resetCalibDesc
  let calib_bytes := w.params.get "CalibrationParams"
  let finish (desc : String) (w : World) : Outcome :=
    .returned { w with resetCalibBtnDescription := desc }
  if calib_bytes ≠ "" then
    match env.readLiveCalibration calib_bytes with
    | .ok calib =>
      if calib.calStatus != 0 then
        let pitch : ℚ := calib.rpyCalib 1 * (180 / M_PI)
        let yaw : ℚ := calib.rpyCalib 2 * (180 / M_PI)
        finish (desc ++ " Your device is pointed " ++ env.number_g1 |pitch| ++ "° "
          ++ (if pitch > 0 then "↑" else "↓") ++ " and " ++ env.number_g1 |yaw| ++ "° "
          ++ (if yaw > 0 then "→" else "←") ++ ".") w
      else finish desc w
    | .error (.kj _) => finish desc (w.log (.qInfo "invalid CalibrationParams"))
    | .error e => .threw e w
  else finish desc w

/-- The text a "Reset Calibration" handler appends to its fixed text, written
once as a function of the blob for comparison with the two handlers: the
orientation sentence when the blob is non-empty, is read without exception and
has a nonzero calStatus, and nothing otherwise. -/
def appendedText (env : Env) (calib_bytes : String) : String :=
  if calib_bytes ≠ "" then
    match env.readLiveCalibration calib_bytes with
    | .ok calib =>
      if calib.calStatus != 0 then
        " Your device is pointed " ++ env.number_g1 |calib.rpyCalib 1 * (180 / M_PI)|
          ++ "° " ++ (if calib.rpyCalib 1 * (180 / M_PI) > 0 then "↑" else "↓")
          ++ " and " ++ env.number_g1 |calib.rpyCalib 2 * (180 / M_PI)|
          ++ "° " ++ (if calib.rpyCalib 2 * (180 / M_PI) > 0 then "→" else "←") ++ "."
      else ""
    | .error _ => ""
  else ""

/-- The "Review Training Guide" button is created only when `Passive` is not
set (line 195). -/
def hasRetrainingBtn (p : Store) : Bool := !p.getBool "Passive"

/-- The handler of `retrainingBtn` (lines 197 to 202). -/
def retrainingBtn_released (answer : Bool) (w : World) : World :=
  let w := w.confirm "Are you sure you want to review the training guide?"
  if answer then
    let w := w.remove "CompletedTrainingVersion"
    w.log (.emitSignal "reviewTrainingGuide")
  else w

/-- The handler of `uninstallBtn` (lines 206 to 210). -/
def uninstallBtn_released (answer : Bool) (w : World) : World :=
  let w := w.confirm "Are you sure you want to uninstall?"
  if answer then w.putBool "DoUninstall" true else w

/-- The handler of `calinit_btn`, "Calibration Reset" (lines 229 to 237). -/
def calinit_btn_released (answer : Bool) (w : World) : World :=
  let w := w.confirm "Are you sure you want to reset calibration? The device will automatically reboot."
  if answer then
    let w := w.remove "CalibrationParams"
    let w := w.remove "LiveParameters"
    w.log (.singleShot 1000 .reboot)
  else w

/-- The handler of `paraminit_btn`, "Parameter Initialization" (lines 242 to 246). -/
def paraminit_btn_released (env : Env) (answer : Bool) (w : World) : World :=
  let w := w.confirm "Reset the parameters to their initial state. Are you sure you want to proceed?"
  if answer then w.execute env "/data/openpilot/init_param.sh" else w

/-- The handler of `presetoneload_btn`, "Load Preset 1" (lines 255 to 259). -/
def presetoneload_btn_released (env : Env) (answer : Bool) (w : World) : World :=
  let w := w.confirm "Are you sure you want to load Preset 1?"
  if answer then w.execute env "/data/openpilot/load_preset1.sh" else w

/-- The handler of `presetonesave_btn`, "Save Preset 1" (lines 264 to 268). -/
def presetonesave_btn_released (env : Env) (answer : Bool) (w : World) : World :=
  let w := w.confirm "Are you sure you want to save Preset 1?"
  if answer then w.execute env "/data/openpilot/save_preset1.sh" else w

/-- The handler of `presettwoload_btn`, "Load Preset 2" (lines 277 to 281). -/
def presettwoload_btn_released (env : Env) (answer : Bool) (w : World) : World :=
  let w := w.confirm "Are you sure you want to save Preset 2?"
  if answer then w.execute env "/data/openpilot/load_preset2.sh" else w

/-- The handler of `presettwosave_btn`, "Save Preset 2" (lines 286 to 290). -/
def presettwosave_btn_released (env : Env) (answer : Bool) (w : World) : World :=
  let w := w.confirm "Are you sure you want to save Preset 2?"
  if answer then w.execute env "/data/openpilot/save_preset2.sh" else w

/-- The handler of `reboot_btn`, "Reboot" (lines 299 to 303). -/
def reboot_btn_released (answer : Bool) (w : World) : World :=
  let w := w.confirm "Are you sure you want to reboot?"
  if answer then w.log (.hardware .reboot) else w

/-- The handler of `poweroff_btn`, "Power Off" (lines 308 to 312). -/
def poweroff_btn_released (answer : Bool) (w : World) : World :=
  let w := w.confirm "Are you sure you want to power off?"
  if answer then w.log (.hardware .poweroff) else w

end DevicePanel

/-! ## Software panel (settings.cc, `SoftwarePanel`) -/

namespace SoftwarePanel

/-- The lambda connected to `updateBtn`'s `released`, "Check and Apply
Update" (lines 334 to 355). The multi-argument `QString::arg` fills `%1` to
`%4` in one pass. -/
def updateBtn_released (env : Env) (answer : Bool) (w : World) : Outcome :=
  let w :=
    if w.params.getBool "IsOffroad" then
      let paramsPath := env.getParamsPath
      let w := w.addPath (paramsPath ++ "/d/LastUpdateTime")
      w.addPath (paramsPath ++ "/d/UpdateFailedCount")
    else w
  let w := w.system env "/data/openpilot/gitcommit.sh"
  let w := w.system env "date '+%F %T' > /data/params/d/LastUpdateTime"
  let desc : String := ""
  match substr (w.params.get "GitCommit") 0 (some 10) with
  | .error e => .threw e w
  | .ok local_bytes =>
  let commit_local : String := fromStdString local_bytes
  match substr (w.params.get "GitCommitRemote") 0 (some 10) with
  | .error e => .threw e w
  | .ok remote_bytes =>
  let commit_remote : String := fromStdString remote_bytes
  let empty : String := ""
  let desc := desc ++ ("Local: " ++ commit_local ++ "\nRemote: " ++ commit_remote ++ empty ++ empty ++ "\n")
  let desc :=
    if commit_local = commit_remote then desc ++ "Local and Remote match. No update required."
    else desc ++ "An update is available. Click OK to apply."
  let w := w.confirm desc
  if answer then .returned (w.system env "/data/openpilot/gitpull.sh") else .returned w

/-- The handler of `gitresetbtn`, "Git Reset" (lines 370 to 376). -/
def gitresetbtn_released (env : Env) (answer : Bool) (w : World) : World :=
  let git_reset := "/data/openpilot/git_reset.sh ''"
  let w := w.confirm "After forcibly initializing local changes, the latest commit history of Remote Git is applied. Are you sure you want to proceed??"
  if answer then w.system env git_reset else w

/-- The handler of `gitpullcanceltbtn`, "Git Pull Cancel" (lines 381 to 387). -/
def gitpullcanceltbtn_released (env : Env) (answer : Bool) (w : World) : World :=
  let gitpull_cancel := "/data/openpilot/gitpull_cancel.sh ''"
  let w := w.confirm "GitPull will be reverted to the previous state. Are you sure you want to proceed?"
  if answer then w.system env gitpull_cancel else w

/-- The handler of `pandaflashingtbtn`, "Flash Panda" (lines 392 to 398). -/
def pandaflashingtbtn_released (env : Env) (answer : Bool) (w : World) : World :=
  let panda_flashing := "/data/openpilot/panda_flashing.sh ''"
  let w := w.confirm "When the panda flashing is in progress, the green LED of the panda blinks quickly and automatically reboots when completed. Never turn off the power of the device or disconnect it arbitrarily. Are  you sure you want to proceed?"
  if answer then w.system env panda_flashing else w

/-- The method `SoftwarePanel::updateLabels` (lines 420 to 435). The statements run in
source order, so an exception leaves the labels set before it and not the ones
after it. -/
def updateLabels (env : Env) (w : World) : Outcome :=
  let lastUpdate : String := ""
  match substr (w.params.get "LastUpdateTime") 0 (some 19) with
  | .error e => .threw e w
  | .ok tm_bytes =>
  let tm : String := fromStdString tm_bytes
  let lastUpdate := if tm ≠ "" then env.timeAgo tm else lastUpdate
  let w := { w with software := { w.software with versionLbl := env.getBrandVersion } }
  let w := { w with software := { w.software with lastUpdateLbl := lastUpdate } }
  let w := { w with software := { w.software with updateBtnText := "CHECK" } }
  let w := { w with software := { w.software with updateBtnEnabled := true } }
  match substr (w.params.get "GitRemote") 19 none with
  | .error e => .threw e w
  | .ok remote_bytes =>
  let w := { w with software := { w.software with gitRemoteLbl := fromStdString remote_bytes } }
  let w := { w with software := { w.software with gitBranchLbl := w.params.get "GitBranch" } }
  let w := { w with software := { w.software with gitCommitLbl := left (w.params.get "GitCommit") 10 } }
  let w := { w with software := { w.software with osVersionLbl := trimmed env.get_os_version } }
  .returned w

/-- The method `SoftwarePanel::showEvent` (lines 416 to 418). -/
def showEvent (env : Env) (w : World) : Outcome := updateLabels env w

/-- The lambda connected to `fs_watch`'s `fileChanged` (lines 404 to 413). It
never calls `removePath`. -/
def fileChanged (env : Env) (path : String) (w : World) : Outcome :=
  let update_failed_count : Int := (env.getInt (w.params.get "UpdateFailedCount")).getD 0
  if contains path "UpdateFailedCount" && decide (update_failed_count > 0) then
    let w := { w with software := { w.software with lastUpdateLbl := "failed to fetch update" } }
    let w := { w with software := { w.software with updateBtnText := "CHECK" } }
    let w := { w with software := { w.software with updateBtnEnabled := true } }
    .returned w
  else if contains path "LastUpdateTime" then
    updateLabels env w
  else .returned w

end SoftwarePanel

/-! ## Developer panel (settings.cc, `UserPanel::UserPanel`) -/

namespace UserPanel

/-- The handler of `recorddelbtn`, "Delete All Recordings" (lines 493 to 499). -/
def recorddelbtn_released (env : Env) (answer : Bool) (w : World) : World :=
  let record_del := "rm -f /storage/emulated/0/videos/*"
  let w := w.confirm "Deletes all saved recorded files. Are you sure you want to proceed?"
  if answer then w.system env record_del else w

/-- The handler of `realdatadelbtn`, "Delete All Driving Logs" (lines 501 to 507). -/
def realdatadelbtn_released (env : Env) (answer : Bool) (w : World) : World :=
  let realdata_del := "rm -rf /storage/emulated/0/realdata/*"
  let w := w.confirm "Deletes all saved driving logs. Are you sure you want to proceed?"
  if answer then w.system env realdata_del else w

/-- The handler of `calokbtn`, "Enable Force Calibration" (lines 554 to 560). -/
def calokbtn_released (env : Env) (answer : Bool) (w : World) : World :=
  let cal_ok := "cp -f /data/openpilot/selfdrive/assets/addon/param/CalibrationParams /data/params/d/"
  let w := w.confirm "Force calibration. It is for checking engagement, so please initialize it during actual driving."
  if answer then w.system env cal_ok else w

/-- The handler of `peditbtn`, "Apply Panda Value Change" (lines 575 to 581). -/
def peditbtn_released (env : Env) (answer : Bool) (w : World) : World :=
  let p_edit_go := "/data/openpilot/p_edit.sh ''"
  let w := w.confirm "Apply the changed pandas value. Are you sure you want to proceed? The device will automatically reboot."
  if answer then w.system env p_edit_go else w

end UserPanel

/-! ## Tuning panel (settings.cc, `TuningPanel::TuningPanel`) -/

/-- A widget handed to `layout->addWidget`. -/
inductive Widget where
  /-- The widget `new LabelControl(title, text)` -/
  | labelControl (title text : String)
  /-- The widget `new C()` for a control class `C` of opkr.h -/
  | control (cls : String)
  /-- The widget `horizontal_line()` -/
  | horizontal_line
  /-- The widget `new ParamControl(param, title, desc, icon, this)`, by its
  parameter and title -/
  | paramControl (param title : String)
  deriving DecidableEq, Repr

namespace TuningPanel

/-- The constructor `TuningPanel::TuningPanel` (lines 585 to 638): the widgets
in the order they are added. `LateralControlMethod` is read once, here. -/
def construct (p : Store) : List Widget :=
  let head : List Widget :=
    [Widget.labelControl "Tuning Menu" "",
     Widget.control "CameraOffset",
     Widget.control "LiveSteerRatioToggle",
     Widget.control "SRBaseControl",
     Widget.control "SRMaxControl",
     Widget.control "SteerActuatorDelay",
     Widget.control "SteerRateCost",
     Widget.control "SteerLimitTimer",
     Widget.control "TireStiffnessFactor",
     Widget.control "SteerMaxBase",
     Widget.control "SteerMaxMax",
     Widget.control "SteerMaxv",
     Widget.control "VariableSteerMaxToggle",
     Widget.control "SteerDeltaUpBase",
     Widget.control "SteerDeltaUpMax",
     Widget.control "SteerDeltaDownBase",
     Widget.control "SteerDeltaDownMax",
     Widget.control "VariableSteerDeltaToggle",
     Widget.control "SteerThreshold",
     Widget.horizontal_line,
     Widget.labelControl "Control Menu" "",
     Widget.control "LateralControl",
     Widget.control "LiveTuneToggle"]
  let lat_control : String := p.get "LateralControlMethod"
  let group : List Widget :=
    if lat_control = "0" then
      [Widget.control "PidKp", Widget.control "PidKi", Widget.control "PidKd",
       Widget.control "PidKf", Widget.control "IgnoreZone", Widget.control "ShaneFeedForward"]
    else if lat_control = "1" then
      [Widget.control "InnerLoopGain", Widget.control "OuterLoopGain",
       Widget.control "TimeConstant", Widget.control "ActuatorEffectiveness"]
    else if lat_control = "2" then
      [Widget.control "Scale", Widget.control "LqrKi", Widget.control "DcGain"]
    else []
  let tail : List Widget :=
    [Widget.horizontal_line,
     Widget.labelControl "Longitudinal Tuning Menu" "",
     Widget.control "DynamicTR",
     Widget.control "CruiseGapTR"]
  head ++ group ++ tail

/-- The classes added under one of the three branches on `lat_control`. -/
def controllerClasses : List String :=
  ["PidKp", "PidKi", "PidKd", "PidKf", "IgnoreZone", "ShaneFeedForward",
   "InnerLoopGain", "OuterLoopGain", "TimeConstant", "ActuatorEffectiveness",
   "Scale", "LqrKi", "DcGain"]

/-- The controller-specific controls present in a layout, in layout order. -/
def controllerSpecific (layout : List Widget) : List Widget :=
  layout.filter fun x =>
    match x with
    | .control cls => decide (cls ∈ controllerClasses)
    | _ => false

end TuningPanel

/-- The Tuning panel as built, next to the store as it is now. settings.cc
connects no slot of the panel to anything after construction (no `showEvent`,
no watcher, no signal), so events after construction reach the store only. -/
structure TuningView where
  layout : List Widget
  params : Store

namespace TuningView

/-- Construction of the panel over a store. -/
def build (p : Store) : TuningView := { layout := TuningPanel.construct p, params := p }

/-- A write of `LateralControlMethod` after construction. -/
def writeMethod (v : TuningView) (value : String) : TuningView :=
  { v with params := v.params.put "LateralControlMethod" value }

/-- A sequence of writes of `LateralControlMethod`, oldest first. -/
def writeMethods (v : TuningView) (values : List String) : TuningView :=
  values.foldl writeMethod v

end TuningView

/-! ## Numeric stepper bindings -/

/-- Modelled from the spec: what a binding does with an input outside its
declared domain, "rejected silently or clamped". -/
inductive OutOfDomain where
  | reject
  | clamp
  deriving DecidableEq, Repr

/-- Modelled from the spec: a numeric stepper binding. opkr.h only declares
the stepper classes (`AutoShutdown` at line 595 and the ones after it, each with
`btnplus`, `btnminus`, `label`, `params`, `refresh`); their bodies are in
opkr.cc, which is not among the sources. A binding has a key, declared bounds
`[min, max]`, a fixed step, its way with out-of-domain input and the cached
rendered value. -/
structure NumericBinding where
  key : String
  min : Int
  max : Int
  step : Int
  policy : OutOfDomain
  value : Int
  deriving DecidableEq, Repr

namespace NumericBinding

/-- Modelled from the spec: the declared domain `[min, max]`. -/
def inDomain (b : NumericBinding) (v : Int) : Bool := decide (b.min ≤ v) && decide (v ≤ b.max)

/-- Modelled from the spec: the nearest bound for an out-of-domain value. -/
def clampValue (b : NumericBinding) (v : Int) : Int :=
  if v < b.min then b.min else if v > b.max then b.max else v

/-- Modelled from the spec: `onUserInput(newValue)` validates the value
against the declared domain, writes it to the store and updates the cached
rendered value; an out-of-domain value is rejected or clamped, never applied
in part. -/
def onUserInput (b : NumericBinding) (newValue : Int) (p : Store) : NumericBinding × Store :=
  if b.inDomain newValue then
    ({ b with value := newValue }, p.put b.key (toString newValue))
  else
    match b.policy with
    | .reject => (b, p)
    | .clamp => ({ b with value := b.clampValue newValue }, p.put b.key (toString (b.clampValue newValue)))

/-- Modelled from the spec: the minus button, one step down. -/
def minus (b : NumericBinding) (p : Store) : NumericBinding × Store :=
  b.onUserInput (b.value - b.step) p

/-- Modelled from the spec: the plus button, one step up. -/
def plus (b : NumericBinding) (p : Store) : NumericBinding × Store :=
  b.onUserInput (b.value + b.step) p

/-- The binding shows what the store holds, and that value is within the
declared bounds. -/
def Coherent (b : NumericBinding) (p : Store) : Prop :=
  p b.key = some (toString b.value) ∧ b.min ≤ b.value ∧ b.value ≤ b.max

instance (b : NumericBinding) (p : Store) : Decidable (b.Coherent p) := by
  unfold Coherent; infer_instance

end NumericBinding

/-! ## Toggles panel (settings.cc, `TogglesPanel::TogglesPanel`) -/

namespace TogglesPanel

/-- The list `toggles` as the constructor fills it (lines 33 to 117), in the
order of the `append` calls; `tici` is `Hardware::TICI()` and `enableMaps`
whether `ENABLE_MAPS` is defined. -/
def toggles (tici enableMaps : Bool) : List Widget :=
  let first : List Widget :=
    [Widget.paramControl "OpenpilotEnabledToggle" "Enable openpilot",
     Widget.paramControl "IsLdwEnabled" "Enable Lane Departure Warnings",
     Widget.paramControl "IsRHD" "Enable Right-Hand Drive",
     Widget.paramControl "IsMetric" "Use Metric System",
     Widget.paramControl "CommunityFeaturesToggle" "Enable Community Features",
     Widget.paramControl "UploadRaw" "Upload Raw Logs",
     Widget.paramControl "RecordFront" "Record and Upload Driver Camera",
     Widget.paramControl "EndToEndToggle" "🥬 Disable use of lanelines (Alpha) 🥬"]
  let wide : List Widget :=
    if tici then [Widget.paramControl "EnableWideCamera" "Enable use of Wide Angle Camera"]
    else []
  let maps : List Widget :=
    if enableMaps then [Widget.paramControl "NavSettingTime24h" "Show ETA in 24h format"]
    else []
  let last : List Widget :=
    [Widget.paramControl "OpkrEnableDriverMonitoring" "Enable Driver Monitoring",
     Widget.paramControl "OpkrEnableLogger" "Enable Logger",
     Widget.paramControl "OpkrEnableUploader" "Enable Uploader",
     Widget.paramControl "CommaStockUI" "Enable Comma Stock UI"]
  first ++ wide ++ maps ++ last

/-- One pass of the layout loop (lines 123 to 126): a line first unless the
layout is still empty, then the toggle. -/
def addToggle (main_layout : List Widget) (toggle : Widget) : List Widget :=
  let main_layout :=
    if main_layout.length != 0 then main_layout ++ [Widget.horizontal_line] else main_layout
  main_layout ++ [toggle]

/-- The layout loop `for (ParamControl *toggle : toggles)` (lines 122 to 127)
over the empty `main_layout`. -/
def layoutLoop (toggles : List Widget) : List Widget :=
  toggles.foldl addToggle []

/-- The widgets of `main_layout` once the constructor has run. -/
def construct (tici enableMaps : Bool) : List Widget :=
  layoutLoop (toggles tici enableMaps)

/-- The lambda connected to the `toggleFlipped` of the EnableWideCamera toggle,
`toggles.back()` right after its `append`, inside `if (Hardware::TICI())`
(lines 85 to 87). -/
def enableWideCamera_toggleFlipped (state : Bool) (w : World) : World :=
  let _ := state
  w.remove "CalibrationParams"

end TogglesPanel

/-! ## Settings window (settings.cc, `SettingsWindow`) -/

/-- The navigation state of `SettingsWindow`: the panel names in the order of
`panels`, the checked flag of each button of `nav_btns` in the same order, and
the current index of `panel_widget` (`none` while it holds no widget). -/
structure SettingsWindow where
  panels : List String
  checked : List Bool
  currentIndex : Option Nat
  deriving DecidableEq, Repr

namespace SettingsWindow

/-- The call `btn->setChecked(true)` on button `i` of the exclusive group
`nav_btns` (a `QButtonGroup` is exclusive by default): that button is checked
and every other one is not. -/
def setChecked (flags : List Bool) (i : Nat) : List Bool :=
  (List.range flags.length).map fun j => decide (j = i)

/-- One pass of the loop `for (auto &[name, panel] : panels)` (lines 697 to
728): the button starts checked iff the group is still empty, then joins the
group, and the panel's frame joins `panel_widget`, whose first widget becomes
the current one. -/
def addPanel (s : SettingsWindow) (name : String) : SettingsWindow :=
  let btnChecked : Bool := s.checked.length == 0
  { panels := s.panels ++ [name]
    checked := s.checked ++ [btnChecked]
    currentIndex := match s.currentIndex with
      | none => some 0
      | some i => some i }

/-- The list `panels` (lines 676 to 693); with `ENABLE_MAPS` defined and a
non-empty `MapboxToken` a Navigation panel is pushed at the end. -/
def panelNames (enableMaps : Bool) (p : Store) : List String :=
  let panels := ["Device", "Network", "Toggles", "Software", "Developer", "Tuning"]
  if enableMaps && decide (p.get "MapboxToken" ≠ "") then panels ++ ["Navigation"] else panels

/-- The constructor `SettingsWindow::SettingsWindow`, as far as navigation goes. -/
def construct (enableMaps : Bool) (p : Store) : SettingsWindow :=
  (panelNames enableMaps p).foldl addPanel { panels := [], checked := [], currentIndex := none }

/-- The lambda connected to the `released` of the `i`-th navigation button
(lines 724 to 727): `btn->setChecked(true); panel_widget->setCurrentWidget(w);`.
There is no such button for `i` beyond the last panel. -/
def navReleased (s : SettingsWindow) (i : Nat) : SettingsWindow :=
  if i < s.panels.length then
    { s with checked := setChecked s.checked i, currentIndex := some i }
  else s

/-- The method `SettingsWindow::showEvent` (lines 640 to 643). -/
def showEvent (s : SettingsWindow) : SettingsWindow :=
  let s := if 0 < s.panels.length then { s with currentIndex := some 0 } else s
  { s with checked := setChecked s.checked 0 }

/-- What can happen to the window after construction. -/
inductive Event where
  | released (i : Nat)
  | shown
  deriving DecidableEq, Repr

/-- One event. -/
def step (s : SettingsWindow) : Event → SettingsWindow
  | .released i => s.navReleased i
  | .shown => s.showEvent

/-- A sequence of events, oldest first. -/
def run (s : SettingsWindow) (events : List Event) : SettingsWindow :=
  events.foldl step s

/-- The indices of the checked buttons of `nav_btns`. -/
def checkedIndices (s : SettingsWindow) : List Nat :=
  (List.range s.checked.length).filter fun j => s.checked.getD j false

/-- The checked button designates the current panel: there are as many flags
as panels, a panel is current, and the button of that panel is the only one
checked. -/
def Consistent (s : SettingsWindow) : Prop :=
  s.checked.length = s.panels.length
  ∧ ∃ i, i < s.panels.length ∧ s.currentIndex = some i ∧ s.checkedIndices = [i]

instance (s : SettingsWindow) : Decidable s.Consistent := by
  unfold Consistent; infer_instance

end SettingsWindow

/-! ## The confirm-guarded buttons as one family -/

/-- The buttons whose whole handler is `if (ConfirmationDialog::confirm(..))`
around an action, named after the variables of settings.cc. -/
inductive GuardedButton where
  | retrainingBtn
  | uninstallBtn
  | calinit_btn
  | paraminit_btn
  | presetoneload_btn
  | presetonesave_btn
  | presettwoload_btn
  | presettwosave_btn
  | reboot_btn
  | poweroff_btn
  | gitresetbtn
  | gitpullcanceltbtn
  | pandaflashingtbtn
  | recorddelbtn
  | realdatadelbtn
  | calokbtn
  | peditbtn
  deriving DecidableEq, Repr

/-- The `released` handler of each guarded button. -/
def GuardedButton.released (b : GuardedButton) (env : Env) (answer : Bool) (w : World) : World :=
  match b with
  | .retrainingBtn => DevicePanel.retrainingBtn_released answer w
  | .uninstallBtn => DevicePanel.uninstallBtn_released answer w
  | .calinit_btn => DevicePanel.calinit_btn_released answer w
  | .paraminit_btn => DevicePanel.paraminit_btn_released env answer w
  | .presetoneload_btn => DevicePanel.presetoneload_btn_released env answer w
  | .presetonesave_btn => DevicePanel.presetonesave_btn_released env answer w
  | .presettwoload_btn => DevicePanel.presettwoload_btn_released env answer w
  | .presettwosave_btn => DevicePanel.presettwosave_btn_released env answer w
  | .reboot_btn => DevicePanel.reboot_btn_released answer w
  | .poweroff_btn => DevicePanel.poweroff_btn_released answer w
  | .gitresetbtn => SoftwarePanel.gitresetbtn_released env answer w
  | .gitpullcanceltbtn => SoftwarePanel.gitpullcanceltbtn_released env answer w
  | .pandaflashingtbtn => SoftwarePanel.pandaflashingtbtn_released env answer w
  | .recorddelbtn => UserPanel.recorddelbtn_released env answer w
  | .realdatadelbtn => UserPanel.realdatadelbtn_released env answer w
  | .calokbtn => UserPanel.calokbtn_released env answer w
  | .peditbtn => UserPanel.peditbtn_released env answer w

/-- The quotient `a / b` rounded to the nearest integer, a tie going to the
even neighbour. -/
def roundHalfEven (a b : Nat) : Nat :=
  let q := a / b
  let r := a % b
  if 2 * r < b then q else if b < 2 * r then q + 1 else if q % 2 = 0 then q else q + 1

/-- The decimal exponent of `n / d` when `d ≤ n`: the first `k` from `k` on with
`n < d * 10 ^ (k + 1)`. -/
def exponentUp : Nat → Nat → Nat → Nat → Nat
  | 0, _, _, k => k
  | fuel + 1, n, d, k => if d * 10 ^ (k + 1) ≤ n then exponentUp fuel n d (k + 1) else k

/-- The decimal exponent, negated, of `n / d` when `0 < n < d`: the first `k` from
`k` on with `d ≤ n * 10 ^ k`. -/
def exponentDown : Nat → Nat → Nat → Nat → Nat
  | 0, _, _, k => k
  | fuel + 1, n, d, k => if n * 10 ^ k < d then exponentDown fuel n d (k + 1) else k

/-- One decimal digit as a string. -/
def digit (m : Nat) : String := String.singleton (Nat.digitChar m)

/-- An exponent as printed after `e+` or `e-`: at least two digits. -/
def exponentDigits (k : Nat) : String :=
  if k < 10 then "0" ++ digit k else String.mk (Nat.toDigits 10 k)

/-- The rendering of `n / d` (with `0 < d`) to one significant digit in the
style of `printf("%.1g")`, which `QString::number(x, 'g', 1)` follows: the digit is
rounded to nearest, ties to even; the exponent form is used when the decimal
exponent after rounding is below -4 or at least 1. -/
def formatNat_g1 (n d : Nat) : String :=
  if n = 0 then "0"
  else if d ≤ n then
    let e := exponentUp n n d 0
    let m := roundHalfEven n (d * 10 ^ e)
    let (m, e) := if m = 10 then (1, e + 1) else (m, e)
    if e = 0 then digit m else digit m ++ "e+" ++ exponentDigits e
  else
    let k := exponentDown d n d 1
    let m := roundHalfEven (n * 10 ^ k) d
    let (m, k) := if m = 10 then (1, k - 1) else (m, k)
    if k = 0 then digit m
    else if k ≤ 4 then "0." ++ String.mk (List.replicate (k - 1) (Char.ofNat 48)) ++ digit m
    else digit m ++ "e-" ++ exponentDigits k

/-- The rendering of a rational to one significant digit, `formatNat_g1` with
the sign in front. -/
def format_g1 (x : ℚ) : String :=
  if x < 0 then "-" ++ formatNat_g1 x.num.natAbs x.den else formatNat_g1 x.num.natAbs x.den

/-- An environment for concrete evaluation: external commands leave the
parameter files alone, the blob reader rejects every blob. -/
def Env.inert : Env where
  shell := fun _ p => p
  exitStatus := fun _ _ => 0
  getInt := fun s =>
    if s.data.all Char.isDigit && !s.data.isEmpty then
      some (s.data.foldl (fun acc c => acc * 10 + ((c.toNat : Int) - 48)) 0)
    else none
  getParamsPath := "/data/params"
  getBrandVersion := "openpilot v0.8.5"
  get_os_version := "3 \n"
  timeAgo := fun _ => "now"
  readLiveCalibration := fun _ => .error (.kj "premature end of message")
  number_g1 := format_g1

/-- An environment in which every external command reports failure. -/
def Env.failing : Env := { Env.inert with exitStatus := fun _ _ => 1 }

/-- A calibration with status 1 whose `rpyCalib` is the list 0, 1/50, -1/100:
pitched up by 1/50 rad and yawed left by 1/100 rad. -/
def LiveCalibration.pitchedUp : LiveCalibration :=
  { calStatus := 1, rpyCalib := fun i => if i = 1 then 1/50 else if i = 2 then -1/100 else 0 }

/-- An environment whose blob reader accepts every blob as the calibration
`LiveCalibration.pitchedUp`. -/
def Env.calibrated : Env :=
  { Env.inert with readLiveCalibration := fun _ => .ok LiveCalibration.pitchedUp }

/-- A freshly built UI over a store with `IsOffroad` set and a full
`GitRemote`. -/
def World.offroad : World :=
  World.ofStore ((Store.empty.putBool "IsOffroad" true).put "GitRemote"
    "https://github.com/r66auto/openpilot5")

/-- The UI of `World.offroad` once the update button has been pressed and
confirmed, with `UpdateFailedCount` then written to "1". -/
def World.updateFailed : World :=
  let w := (SoftwarePanel.updateBtn_released Env.inert true World.offroad).world
  { w with params := w.params.put "UpdateFailedCount" "1" }

/-- A freshly built UI over a store whose local and remote commits agree on
their first ten characters (and bytes) only. -/
def World.sameCommitStart : World :=
  World.ofStore ((Store.empty.put "GitCommit" "0123456789abcdef").put "GitCommitRemote"
    "0123456789ffffff")

/-- A stepper over 0 to 10 in steps of 1 that clamps, standing at its minimum. -/
def NumericBinding.atMinimum : NumericBinding :=
  { key := "OpkrAutoShutdown", min := 0, max := 10, step := 1, policy := .clamp, value := 0 }

/-- A freshly built UI over a store whose `CalibrationParams` is one byte the
reader rejects. -/
def World.garbledCalibration : World :=
  World.ofStore (Store.empty.put "CalibrationParams" "x")

/-- A freshly built UI over a store holding a branch and a commit but no
`GitRemote`. -/
def World.withoutRemote : World :=
  World.ofStore ((Store.empty.put "GitBranch" "release").put "GitCommit" "0123456789abcdef")

/-- A freshly built UI over a store whose `GitRemote` is a full repository
address. -/
def World.withRemote : World :=
  World.ofStore (Store.empty.put "GitRemote" "https://github.com/r66auto/openpilot5")

/-! ## Properties -/

theorem Store.getBool_putBool (p : Store) (k : String) (b : Bool) :
    (p.putBool k b).getBool k = b := by
  cases b <;> simp [Store.putBool, Store.getBool, Store.get, Store.put]

theorem Toggle.ctorKey_eq_handlerKey (t : Toggle) : t.ctorKey = t.handlerKey := by
  cases t <;> rfl

theorem Toggle.toggleFlipped_params (t : Toggle) (s : Int) (w : World) :
    (t.toggleFlipped s w).params = w.params.putBool t.handlerKey (decide (s ≠ 0)) := by
  by_cases h : s = 0 <;> simp [Toggle.toggleFlipped, World.putBool, h]

theorem Toggle.toggleFlipped_getBool (t : Toggle) (s : Int) (w : World) :
    (t.toggleFlipped s w).params.getBool t.handlerKey = decide (s ≠ 0) := by
  rw [Toggle.toggleFlipped_params, Store.getBool_putBool]

/-- C1: for every toggle class of opkr.h and every integer state delivered by
toggleFlipped, the store afterwards holds `getBool(key) = (state != 0)` at the
key the toggle is bound to; a flip to off after any flip leaves `false`; and
the stored value equals the state the control displays. -/
theorem toggle_store_round_trip (t : Toggle) (s : Int) (w : World) :
    (t.toggleFlipped s w).params.getBool t.ctorKey = decide (s ≠ 0)
    ∧ (t.toggleFlipped 0 (t.toggleFlipped 1 w)).params.getBool t.ctorKey = false
    ∧ (∀ s_on : Int, (t.toggleFlipped 0 (t.toggleFlipped s_on w)).params.getBool t.ctorKey = false)
    ∧ (∀ c : ToggleControl,
        (c.onUserInput s w).2.params.getBool c.toggle.ctorKey = (c.onUserInput s w).1.displayed)
    ∧ (ToggleControl.construct t w.params).displayed = w.params.getBool t.ctorKey := by
  refine ⟨?_, ?_, ?_, ?_, rfl⟩
  · rw [Toggle.ctorKey_eq_handlerKey, Toggle.toggleFlipped_getBool]
  · rw [Toggle.ctorKey_eq_handlerKey, Toggle.toggleFlipped_getBool]; simp
  · intro s_on
    rw [Toggle.ctorKey_eq_handlerKey, Toggle.toggleFlipped_getBool]; simp
  · intro c
    simp only [ToggleControl.onUserInput]
    rw [Toggle.ctorKey_eq_handlerKey, Toggle.toggleFlipped_getBool]
    by_cases h : s = 0 <;> simp [h]

/-- C2: for every toggle class of opkr.h the key read by the constructor is the
key written by the toggleFlipped handler, so a fresh instance constructed
against the store left by a flip to state `s` starts in state `s`. -/
theorem toggle_reconstruction_reads_flip (t : Toggle) (s : Int) (w : World) :
    t.ctorKey = t.handlerKey
    ∧ (ToggleControl.construct t (t.toggleFlipped s w).params).displayed = decide (s ≠ 0)
    ∧ ToggleControl.construct t (t.toggleFlipped s w).params
        = ((ToggleControl.construct t w.params).onUserInput s w).1 := by
  have h1 : (ToggleControl.construct t (t.toggleFlipped s w).params).displayed = decide (s ≠ 0) := by
    simp only [ToggleControl.construct, Toggle.initialState]
    rw [Toggle.ctorKey_eq_handlerKey, Toggle.toggleFlipped_getBool]
  refine ⟨Toggle.ctorKey_eq_handlerKey t, h1, ?_⟩
  simp only [ToggleControl.construct, ToggleControl.onUserInput, Toggle.initialState] at h1 ⊢
  rw [h1]
  by_cases h : s = 0 <;> simp [h]

/-- C3: for each toggle that publishes into the shared scene, after its
toggleFlipped handler the published flag (both flags for LiveTunePanelToggle)
and the stored parameter equal `state != 0`. -/
theorem toggle_scene_flag_matches_store (s : Int) (w : World) :
    ((Toggle.BlindSpotDetectToggle.toggleFlipped s w).scene.nOpkrBlindSpotDetect = decide (s ≠ 0)
      ∧ (Toggle.BlindSpotDetectToggle.toggleFlipped s w).params.getBool "OpkrBlindSpotDetect" = decide (s ≠ 0))
    ∧ ((Toggle.DrivingRecordToggle.toggleFlipped s w).scene.driving_record = decide (s ≠ 0)
      ∧ (Toggle.DrivingRecordToggle.toggleFlipped s w).params.getBool "OpkrDrivingRecord" = decide (s ≠ 0))
    ∧ ((Toggle.DebugUiOneToggle.toggleFlipped s w).scene.nDebugUi1 = decide (s ≠ 0)
      ∧ (Toggle.DebugUiOneToggle.toggleFlipped s w).params.getBool "DebugUi1" = decide (s ≠ 0))
    ∧ ((Toggle.DebugUiTwoToggle.toggleFlipped s w).scene.nDebugUi2 = decide (s ≠ 0)
      ∧ (Toggle.DebugUiTwoToggle.toggleFlipped s w).params.getBool "DebugUi2" = decide (s ≠ 0))
    ∧ ((Toggle.LiveTunePanelToggle.toggleFlipped s w).scene.live_tune_panel_enable = decide (s ≠ 0)
      ∧ (Toggle.LiveTunePanelToggle.toggleFlipped s w).scene.opkr_livetune_ui = decide (s ≠ 0)
      ∧ (Toggle.LiveTunePanelToggle.toggleFlipped s w).params.getBool "OpkrLiveTunePanelEnable" = decide (s ≠ 0))
    ∧ ((Toggle.KRDateToggle.toggleFlipped s w).scene.kr_date_show = decide (s ≠ 0)
      ∧ (Toggle.KRDateToggle.toggleFlipped s w).params.getBool "KRDateShow" = decide (s ≠ 0))
    ∧ ((Toggle.KRTimeToggle.toggleFlipped s w).scene.kr_time_show = decide (s ≠ 0)
      ∧ (Toggle.KRTimeToggle.toggleFlipped s w).params.getBool "KRTimeShow" = decide (s ≠ 0)) := by
  have hb := fun t : Toggle => Toggle.toggleFlipped_getBool t s w
  refine ⟨⟨?_, hb .BlindSpotDetectToggle⟩, ⟨?_, hb .DrivingRecordToggle⟩, ⟨?_, hb .DebugUiOneToggle⟩,
    ⟨?_, hb .DebugUiTwoToggle⟩, ⟨?_, ?_, hb .LiveTunePanelToggle⟩, ⟨?_, hb .KRDateToggle⟩,
    ⟨?_, hb .KRTimeToggle⟩⟩ <;>
  · by_cases h : s = 0 <;> simp [Toggle.toggleFlipped, Toggle.publish, World.putBool, h]

theorem GuardedButton.released_cancelled (b : GuardedButton) (env : Env) (w : World) :
    ∃ text, b.released env false w = w.log (.confirm text) := by
  cases b <;> exact ⟨_, rfl⟩

/-- C4: when `ConfirmationDialog::confirm` returns false, the handler of every
confirm-guarded button of the Device, Software and Developer panels only shows
its dialog: the store and the scene are unchanged and the trace gains no
parameter write or removal, no command, no hardware call and no signal; in
particular a cancelled "Reboot" adds no invocation of `Hardware::reboot`. -/
theorem cancelled_guarded_button_has_no_effect (b : GuardedButton) (env : Env) (w : World) :
    (∃ text, b.released env false w = w.log (.confirm text))
    ∧ (b.released env false w).params = w.params
    ∧ (b.released env false w).scene = w.scene
    ∧ (∃ text, (b.released env false w).trace = w.trace ++ [.confirm text])
    ∧ (DevicePanel.reboot_btn_released false w).trace.count (.hardware .reboot)
        = w.trace.count (.hardware .reboot) := by
  obtain ⟨text, h⟩ := GuardedButton.released_cancelled b env w
  refine ⟨⟨text, h⟩, ?_, ?_, ⟨text, ?_⟩, ?_⟩
  · rw [h]; rfl
  · rw [h]; rfl
  · rw [h]; rfl
  · simp [DevicePanel.reboot_btn_released, World.confirm, World.log]

/-- C5, as stated, fails: on the empty store with the dialog cancelled, the
"Check and Apply Update" handler has already run `gitcommit.sh` and the write of
`LastUpdateTime` before the dialog is shown. -/
theorem update_cancelled_still_runs_commands :
    (SoftwarePanel.updateBtn_released Env.inert false (World.ofStore Store.empty)).world.trace
      = [.system "/data/openpilot/gitcommit.sh",
         .system "date '+%F %T' > /data/params/d/LastUpdateTime",
         .confirm "Local: \nRemote: \nLocal and Remote match. No update required."] := by
  rfl

theorem substr_zero (s : String) (n : Nat) : substr s 0 (some n) = .ok ((utf8 s).take n) := by
  simp [substr]

/-- C5, amended: for every store and environment, when the dialog is
cancelled the "Check and Apply Update" handler returns, and what it has added
to the trace is exactly: when `IsOffroad` is set, the registrations of the two
watched paths `<params path>/d/LastUpdateTime` and
`<params path>/d/UpdateFailedCount`; then `gitcommit.sh`; then the write of
`LastUpdateTime`; then the dialog, whose text is built from the store those two
commands leave. The store is the one the two commands leave, and `gitpull.sh`
is not run. -/
theorem update_cancelled_never_pulls (env : Env) (w : World) :
    (SoftwarePanel.updateBtn_released env false w).raised = none
    ∧ (SoftwarePanel.updateBtn_released env false w).world.trace
        = w.trace
          ++ (if w.params.getBool "IsOffroad" = true then
                [Effect.addPath (env.getParamsPath ++ "/d/LastUpdateTime"),
                 Effect.addPath (env.getParamsPath ++ "/d/UpdateFailedCount")]
              else [])
          ++ [Effect.system "/data/openpilot/gitcommit.sh",
              Effect.system "date '+%F %T' > /data/params/d/LastUpdateTime",
              Effect.confirm
                ("Local: "
                  ++ fromStdString ((utf8 ((SoftwarePanel.updateBtn_released env false w).world.params.get
                      "GitCommit")).take 10)
                  ++ "\nRemote: "
                  ++ fromStdString ((utf8 ((SoftwarePanel.updateBtn_released env false w).world.params.get
                      "GitCommitRemote")).take 10)
                  ++ "\n"
                  ++ (if fromStdString ((utf8 ((SoftwarePanel.updateBtn_released env false w).world.params.get
                          "GitCommit")).take 10)
                        = fromStdString ((utf8 ((SoftwarePanel.updateBtn_released env false w).world.params.get
                          "GitCommitRemote")).take 10)
                      then "Local and Remote match. No update required."
                      else "An update is available. Click OK to apply."))]
    ∧ (SoftwarePanel.updateBtn_released env false w).world.params
        = env.shell "date '+%F %T' > /data/params/d/LastUpdateTime"
            (env.shell "/data/openpilot/gitcommit.sh" w.params)
    ∧ (SoftwarePanel.updateBtn_released env false w).world.trace.count
          (.system "/data/openpilot/gitpull.sh")
        = w.trace.count (.system "/data/openpilot/gitpull.sh") := by
  have hp : (SoftwarePanel.updateBtn_released env false w).world.params
        = env.shell "date '+%F %T' > /data/params/d/LastUpdateTime"
            (env.shell "/data/openpilot/gitcommit.sh" w.params) := by
    by_cases h : w.params.getBool "IsOffroad" = true
    · simp [SoftwarePanel.updateBtn_released, substr_zero, Outcome.world, h, World.addPath,
        World.system, World.systemCall, World.confirm, World.log]
    · simp [SoftwarePanel.updateBtn_released, substr_zero, Outcome.world, h,
        World.system, World.systemCall, World.confirm, World.log]
  refine ⟨?_, ?_, hp, ?_⟩
  · simp [SoftwarePanel.updateBtn_released, substr_zero, Outcome.raised]
  · rw [hp]
    by_cases h : w.params.getBool "IsOffroad" = true
    · by_cases hLR : fromStdString ((utf8 ((env.shell "date '+%F %T' > /data/params/d/LastUpdateTime"
            (env.shell "/data/openpilot/gitcommit.sh" w.params)).get "GitCommit")).take 10)
          = fromStdString ((utf8 ((env.shell "date '+%F %T' > /data/params/d/LastUpdateTime"
            (env.shell "/data/openpilot/gitcommit.sh" w.params)).get "GitCommitRemote")).take 10)
      · simp [SoftwarePanel.updateBtn_released, substr_zero, Outcome.world, h, World.addPath,
          World.system, World.systemCall, World.confirm, World.log, hLR, String.append_assoc]
      · simp [SoftwarePanel.updateBtn_released, substr_zero, Outcome.world, h, World.addPath,
          World.system, World.systemCall, World.confirm, World.log, hLR, String.append_assoc]
    · by_cases hLR : fromStdString ((utf8 ((env.shell "date '+%F %T' > /data/params/d/LastUpdateTime"
            (env.shell "/data/openpilot/gitcommit.sh" w.params)).get "GitCommit")).take 10)
          = fromStdString ((utf8 ((env.shell "date '+%F %T' > /data/params/d/LastUpdateTime"
            (env.shell "/data/openpilot/gitcommit.sh" w.params)).get "GitCommitRemote")).take 10)
      · simp [SoftwarePanel.updateBtn_released, substr_zero, Outcome.world, h,
          World.system, World.systemCall, World.confirm, World.log, hLR, String.append_assoc]
      · simp [SoftwarePanel.updateBtn_released, substr_zero, Outcome.world, h,
          World.system, World.systemCall, World.confirm, World.log, hLR, String.append_assoc]
  · by_cases h : w.params.getBool "IsOffroad" = true
    · simp [SoftwarePanel.updateBtn_released, substr_zero, Outcome.world, h, World.addPath,
        World.system, World.systemCall, World.confirm, World.log, List.count_cons]
    · simp [SoftwarePanel.updateBtn_released, substr_zero, Outcome.world, h,
        World.system, World.systemCall, World.confirm, World.log, List.count_cons]

/-- C6: when `ConfirmationDialog::confirm` returns true, every confirm-guarded
handler performs its guarded action exactly once, whatever the store holds:
the trace gains the dialog followed by exactly the action's effects. "Check
and Apply Update" runs `gitpull.sh` once after the dialog whether or not the
two commits match. -/
theorem confirmed_guarded_button_acts_once (env : Env) (w : World) :
    (∃ text, (DevicePanel.reboot_btn_released true w).trace
        = w.trace ++ [.confirm text, .hardware .reboot])
    ∧ (∃ text, (DevicePanel.poweroff_btn_released true w).trace
        = w.trace ++ [.confirm text, .hardware .poweroff])
    ∧ ((∃ text, (DevicePanel.uninstallBtn_released true w).trace
          = w.trace ++ [.confirm text, .paramPutBool "DoUninstall" true])
        ∧ (DevicePanel.uninstallBtn_released true w).params.getBool "DoUninstall" = true)
    ∧ ((∃ text, (DevicePanel.retrainingBtn_released true w).trace
          = w.trace ++ [.confirm text, .paramRemove "CompletedTrainingVersion",
              .emitSignal "reviewTrainingGuide"])
        ∧ (DevicePanel.retrainingBtn_released true w).params "CompletedTrainingVersion" = none)
    ∧ ((∃ text, (DevicePanel.calinit_btn_released true w).trace
          = w.trace ++ [.confirm text, .paramRemove "CalibrationParams",
              .paramRemove "LiveParameters", .singleShot 1000 .reboot])
        ∧ (DevicePanel.calinit_btn_released true w).params "CalibrationParams" = none
        ∧ (DevicePanel.calinit_btn_released true w).params "LiveParameters" = none)
    ∧ (∃ text, (DevicePanel.paraminit_btn_released env true w).trace
        = w.trace ++ [.confirm text, .processExecute "/data/openpilot/init_param.sh"])
    ∧ (∃ text, (DevicePanel.presetoneload_btn_released env true w).trace
        = w.trace ++ [.confirm text, .processExecute "/data/openpilot/load_preset1.sh"])
    ∧ (∃ text, (DevicePanel.presetonesave_btn_released env true w).trace
        = w.trace ++ [.confirm text, .processExecute "/data/openpilot/save_preset1.sh"])
    ∧ (∃ text, (DevicePanel.presettwoload_btn_released env true w).trace
        = w.trace ++ [.confirm text, .processExecute "/data/openpilot/load_preset2.sh"])
    ∧ (∃ text, (DevicePanel.presettwosave_btn_released env true w).trace
        = w.trace ++ [.confirm text, .processExecute "/data/openpilot/save_preset2.sh"])
    ∧ (∃ text, (SoftwarePanel.gitresetbtn_released env true w).trace
        = w.trace ++ [.confirm text, .system "/data/openpilot/git_reset.sh ''"])
    ∧ (∃ text, (SoftwarePanel.gitpullcanceltbtn_released env true w).trace
        = w.trace ++ [.confirm text, .system "/data/openpilot/gitpull_cancel.sh ''"])
    ∧ (∃ text, (SoftwarePanel.pandaflashingtbtn_released env true w).trace
        = w.trace ++ [.confirm text, .system "/data/openpilot/panda_flashing.sh ''"])
    ∧ (∃ text, (UserPanel.recorddelbtn_released env true w).trace
        = w.trace ++ [.confirm text, .system "rm -f /storage/emulated/0/videos/*"])
    ∧ (∃ text, (UserPanel.realdatadelbtn_released env true w).trace
        = w.trace ++ [.confirm text, .system "rm -rf /storage/emulated/0/realdata/*"])
    ∧ (∃ text, (UserPanel.calokbtn_released env true w).trace
        = w.trace ++ [.confirm text,
            .system "cp -f /data/openpilot/selfdrive/assets/addon/param/CalibrationParams /data/params/d/"])
    ∧ (∃ text, (UserPanel.peditbtn_released env true w).trace
        = w.trace ++ [.confirm text, .system "/data/openpilot/p_edit.sh ''"])
    ∧ ((SoftwarePanel.updateBtn_released env true w).raised = none
        ∧ (SoftwarePanel.updateBtn_released env true w).world.trace
            = (SoftwarePanel.updateBtn_released env false w).world.trace
              ++ [.system "/data/openpilot/gitpull.sh"]
        ∧ (SoftwarePanel.updateBtn_released env true w).world.trace.count
              (.system "/data/openpilot/gitpull.sh")
            = w.trace.count (.system "/data/openpilot/gitpull.sh") + 1) := by
  have a2 : ∀ (l : List Effect) (a b : Effect), l ++ [a] ++ [b] = l ++ [a, b] := by simp
  have a3 : ∀ (l : List Effect) (a b c : Effect), l ++ [a] ++ [b] ++ [c] = l ++ [a, b, c] := by simp
  have a4 : ∀ (l : List Effect) (a b c d : Effect),
      l ++ [a] ++ [b] ++ [c] ++ [d] = l ++ [a, b, c, d] := by simp
  refine ⟨⟨_, a2 _ _ _⟩, ⟨_, a2 _ _ _⟩, ⟨⟨_, a2 _ _ _⟩, ?_⟩, ⟨⟨_, a3 _ _ _ _⟩, ?_⟩,
    ⟨⟨_, a4 _ _ _ _ _⟩, ?_, ?_⟩, ⟨_, a2 _ _ _⟩, ⟨_, a2 _ _ _⟩, ⟨_, a2 _ _ _⟩, ⟨_, a2 _ _ _⟩,
    ⟨_, a2 _ _ _⟩, ⟨_, a2 _ _ _⟩, ⟨_, a2 _ _ _⟩, ⟨_, a2 _ _ _⟩, ⟨_, a2 _ _ _⟩, ⟨_, a2 _ _ _⟩,
    ⟨_, a2 _ _ _⟩, ⟨_, a2 _ _ _⟩, ?_, ?_, ?_⟩
  · simp [DevicePanel.uninstallBtn_released, World.confirm, World.log, World.putBool,
      Store.getBool_putBool]
  · simp [DevicePanel.retrainingBtn_released, World.confirm, World.log, World.remove, Store.remove]
  · simp [DevicePanel.calinit_btn_released, World.confirm, World.log, World.remove, Store.remove]
  · simp [DevicePanel.calinit_btn_released, World.confirm, World.log, World.remove, Store.remove]
  · simp [SoftwarePanel.updateBtn_released, substr_zero, Outcome.raised]
  · simp [SoftwarePanel.updateBtn_released, substr_zero, Outcome.world, World.system, World.systemCall,
      World.confirm, World.log]
  · by_cases h : w.params.getBool "IsOffroad" = true <;>
      simp [SoftwarePanel.updateBtn_released, substr_zero, Outcome.world, h, World.addPath,
        World.system, World.systemCall, World.confirm, World.log, List.count_cons]

/-- C7: for a malformed `CalibrationParams` blob (zero-length, or bytes the
reader rejects with `kj::Exception`) both "Reset Calibration" handlers return
without an exception, and the text shown is the one shown when there is no
calibration data: the fixed text with no orientation sentence. The only
other trace entry is the `qInfo` line; no further dialog appears, and the
showDescription handler shows no dialog at all. -/
theorem malformed_calibration_blob_reads_as_no_data (env : Env) (answer : Bool) (w : World)
    (h : w.params.get "CalibrationParams" = ""
      ∨ ∃ d, env.readLiveCalibration (w.params.get "CalibrationParams") = .error (.kj d)) :
    (DevicePanel.resetCalibBtn_released env answer w).raised = none
    ∧ (∃ info, (∀ e ∈ info, e = Effect.qInfo "invalid CalibrationParams")
        ∧ (DevicePanel.resetCalibBtn_released env answer w).world.trace
            = w.trace ++ info ++ [.alert "[Reference value: within L/R 4° and UP/DN 5°]"])
    ∧ (DevicePanel.resetCalibBtn_released env answer w).world.params = w.params
    ∧ (DevicePanel.resetCalibBtn_showDescription env w).raised = none
    ∧ (DevicePanel.resetCalibBtn_showDescription env w).world.resetCalibBtnDescription
        = DevicePanel.resetCalibDesc
    ∧ (DevicePanel.resetCalibBtn_showDescription env w).world.resetCalibBtnDescription
        = (DevicePanel.resetCalibBtn_showDescription env
            { w with params := w.params.remove "CalibrationParams" }).world.resetCalibBtnDescription
    ∧ (∃ info, (∀ e ∈ info, e = Effect.qInfo "invalid CalibrationParams")
        ∧ (DevicePanel.resetCalibBtn_showDescription env w).world.trace = w.trace ++ info) := by
  have habsent : (w.params.remove "CalibrationParams").get "CalibrationParams" = "" := by
    simp [Store.remove, Store.get]
  by_cases h0 : w.params.get "CalibrationParams" = ""
  · refine ⟨?_, ⟨[], ?_, ?_⟩, ?_, ?_, ?_, ?_, ⟨[], ?_, ?_⟩⟩ <;>
      simp [DevicePanel.resetCalibBtn_released, DevicePanel.resetCalibBtn_showDescription,
        h0, habsent, Outcome.raised, Outcome.world, World.log]
  · rcases h with h | ⟨d, hd⟩
    · exact absurd h h0
    · refine ⟨?_, ⟨[.qInfo "invalid CalibrationParams"], ?_, ?_⟩, ?_, ?_, ?_, ?_,
        ⟨[.qInfo "invalid CalibrationParams"], ?_, ?_⟩⟩ <;>
        simp [DevicePanel.resetCalibBtn_released, DevicePanel.resetCalibBtn_showDescription,
          h0, hd, habsent, Outcome.raised, Outcome.world, World.log]

/-- Witness for C7: a one-byte blob that the reader rejects, and the
zero-length blob of the empty store. -/
theorem malformed_calibration_blob_reads_as_no_data_witness :
    (World.garbledCalibration.params.get "CalibrationParams" = ""
      ∨ ∃ d, Env.inert.readLiveCalibration (World.garbledCalibration.params.get "CalibrationParams")
          = .error (.kj d))
    ∧ (DevicePanel.resetCalibBtn_released Env.inert true World.garbledCalibration).raised = none
    ∧ (DevicePanel.resetCalibBtn_released Env.inert true World.garbledCalibration).world.trace
        = [.qInfo "invalid CalibrationParams", .alert "[Reference value: within L/R 4° and UP/DN 5°]"]
    ∧ (DevicePanel.resetCalibBtn_showDescription Env.inert World.garbledCalibration).raised = none
    ∧ (DevicePanel.resetCalibBtn_showDescription Env.inert
        World.garbledCalibration).world.resetCalibBtnDescription = DevicePanel.resetCalibDesc
    ∧ (DevicePanel.resetCalibBtn_released Env.inert false (World.ofStore Store.empty)).raised = none
    ∧ (DevicePanel.resetCalibBtn_released Env.inert false (World.ofStore Store.empty)).world.trace
        = [.alert "[Reference value: within L/R 4° and UP/DN 5°]"]
    ∧ (DevicePanel.resetCalibBtn_showDescription Env.inert World.garbledCalibration).world.trace
        = [.qInfo "invalid CalibrationParams"] :=
  have h := malformed_calibration_blob_reads_as_no_data Env.inert true World.garbledCalibration
    (Or.inr ⟨_, rfl⟩)
  have h0 := malformed_calibration_blob_reads_as_no_data Env.inert false (World.ofStore Store.empty)
    (Or.inl rfl)
  ⟨Or.inr ⟨_, rfl⟩, h.1, rfl, h.2.2.2.1, h.2.2.2.2.1, h0.1, rfl, rfl⟩

theorem SoftwarePanel.updateLabels_of_long_remote (env : Env) (w : World)
    (h : 19 ≤ (utf8 (w.params.get "GitRemote")).length) :
    SoftwarePanel.updateLabels env w = .returned
      { w with software := { w.software with
          versionLbl := env.getBrandVersion
          lastUpdateLbl :=
            if fromStdString ((utf8 (w.params.get "LastUpdateTime")).take 19) ≠ "" then
              env.timeAgo (fromStdString ((utf8 (w.params.get "LastUpdateTime")).take 19))
            else ""
          updateBtnText := "CHECK"
          updateBtnEnabled := true
          gitRemoteLbl := fromStdString ((utf8 (w.params.get "GitRemote")).drop 19)
          gitBranchLbl := w.params.get "GitBranch"
          gitCommitLbl := left (w.params.get "GitCommit") 10
          osVersionLbl := trimmed env.get_os_version } } := by
  have h19 : ¬ 19 > (utf8 (w.params.get "GitRemote")).length := by omega
  simp only [SoftwarePanel.updateLabels, substr_zero]
  simp only [substr, h19, if_false]

theorem SoftwarePanel.updateLabels_of_short_remote (env : Env) (w : World)
    (h : (utf8 (w.params.get "GitRemote")).length < 19) :
    SoftwarePanel.updateLabels env w = .threw (.out_of_range "basic_string::substr")
      { w with software := { w.software with
          versionLbl := env.getBrandVersion
          lastUpdateLbl :=
            if fromStdString ((utf8 (w.params.get "LastUpdateTime")).take 19) ≠ "" then
              env.timeAgo (fromStdString ((utf8 (w.params.get "LastUpdateTime")).take 19))
            else ""
          updateBtnText := "CHECK"
          updateBtnEnabled := true } } := by
  have h19 : 19 > (utf8 (w.params.get "GitRemote")).length := h
  simp only [SoftwarePanel.updateLabels, substr_zero]
  simp only [substr, h19, if_true]

/-- C8 at its failing input: the store holds `GitBranch = "release"`, a
`GitCommit` and no `GitRemote`; the visibility refresh of a freshly built
Software panel is left by `std::out_of_range` at `substr(19)`, and the branch
and commit labels keep the empty text they had instead of what is stored. -/
theorem showEvent_without_remote_leaves_branch_stale :
    (SoftwarePanel.showEvent Env.inert World.withoutRemote).raised
      = some (.out_of_range "basic_string::substr")
    ∧ (SoftwarePanel.showEvent Env.inert World.withoutRemote).world.software.gitBranchLbl = ""
    ∧ (SoftwarePanel.showEvent Env.inert World.withoutRemote).world.software.gitCommitLbl = []
    ∧ World.withoutRemote.params.get "GitBranch" = "release"
    ∧ left (World.withoutRemote.params.get "GitCommit") 10 = utf16 "0123456789" := by
  refine ⟨rfl, rfl, rfl, rfl, rfl⟩

/-- C9: on every store on which `updateLabels` completes, and with the same
clock and environment, running the refresh a second time gives the very
outcome of running it once (every label, the button text and its enabled
flag), and the refresh leaves the parameter store and the trace as they were. -/
theorem updateLabels_idempotent (env : Env) (w : World)
    (h : (SoftwarePanel.updateLabels env w).completes = true) :
    SoftwarePanel.updateLabels env (SoftwarePanel.updateLabels env w).world
      = SoftwarePanel.updateLabels env w
    ∧ (SoftwarePanel.updateLabels env (SoftwarePanel.updateLabels env w).world).world.software
      = (SoftwarePanel.updateLabels env w).world.software
    ∧ (SoftwarePanel.updateLabels env w).world.params = w.params
    ∧ (SoftwarePanel.updateLabels env w).world.trace = w.trace := by
  have h19 : 19 ≤ (utf8 (w.params.get "GitRemote")).length := by
    by_contra hlt
    rw [SoftwarePanel.updateLabels_of_short_remote env w (by omega)] at h
    simp [Outcome.completes, Outcome.raised] at h
  have hidem : SoftwarePanel.updateLabels env (SoftwarePanel.updateLabels env w).world
      = SoftwarePanel.updateLabels env w := by
    rw [SoftwarePanel.updateLabels_of_long_remote env w h19]
    rw [SoftwarePanel.updateLabels_of_long_remote env _ (by simpa [Outcome.world] using h19)]
    simp [Outcome.world]
  refine ⟨hidem, by rw [hidem], ?_, ?_⟩
  · rw [SoftwarePanel.updateLabels_of_long_remote env w h19]; rfl
  · rw [SoftwarePanel.updateLabels_of_long_remote env w h19]; rfl

/-- Witness for C9: a store whose `GitRemote` is a full repository address. -/
theorem updateLabels_idempotent_witness :
    (SoftwarePanel.updateLabels Env.inert World.withRemote).completes = true
    ∧ SoftwarePanel.updateLabels Env.inert
          (SoftwarePanel.updateLabels Env.inert World.withRemote).world
        = SoftwarePanel.updateLabels Env.inert World.withRemote
    ∧ (SoftwarePanel.updateLabels Env.inert World.withRemote).world.software.gitRemoteLbl
        = "r66auto/openpilot5" :=
  ⟨rfl, (updateLabels_idempotent Env.inert World.withRemote rfl).1, rfl⟩

/-- C10 at its failing input: with `GitRemote` absent, `updateLabels` raises
`std::out_of_range` from `substr(19)`. -/
theorem updateLabels_without_remote_throws :
    (SoftwarePanel.updateLabels Env.inert (World.ofStore Store.empty)).raised
      = some (.out_of_range "basic_string::substr")
    ∧ (SoftwarePanel.updateLabels Env.inert (World.ofStore Store.empty)).completes = false
    ∧ substr (Store.empty.get "GitRemote") 19 none = .error (.out_of_range "basic_string::substr") := by
  refine ⟨rfl, rfl, rfl⟩

/-! ### Tuning panel, watches, exit statuses, repeated presses -/

theorem TuningView.writeMethods_layout (v : TuningView) (values : List String) :
    (v.writeMethods values).layout = v.layout := by
  induction values generalizing v with
  | nil => rfl
  | cons x xs ih =>
    simp only [TuningView.writeMethods, List.foldl_cons] at ih ⊢
    rw [ih]; rfl

/-- C11, as stated, fails: a panel built while `LateralControlMethod` is "0"
still holds the six PID controls after the parameter is written to "1",
whereas the controls that go with the current value are the four INDI ones. -/
theorem tuning_controls_stale_after_method_write :
    TuningPanel.controllerSpecific
        ((TuningView.build (Store.empty.put "LateralControlMethod" "0")).writeMethod "1").layout
      = [Widget.control "PidKp", Widget.control "PidKi", Widget.control "PidKd",
         Widget.control "PidKf", Widget.control "IgnoreZone", Widget.control "ShaneFeedForward"]
    ∧ ((TuningView.build (Store.empty.put "LateralControlMethod" "0")).writeMethod "1").params.get
        "LateralControlMethod" = "1"
    ∧ TuningPanel.controllerSpecific (TuningPanel.construct
        ((TuningView.build (Store.empty.put "LateralControlMethod" "0")).writeMethod "1").params)
      = [Widget.control "InnerLoopGain", Widget.control "OuterLoopGain",
         Widget.control "TimeConstant", Widget.control "ActuatorEffectiveness"] := by
  refine ⟨by decide, by decide, by decide⟩

/-- C11, amended: the controller-specific controls are chosen once, at
construction, from the value `LateralControlMethod` has then; for every
sequence of later writes the layout, and so the controller-specific controls
in it, stay those of construction, while the store follows the writes. Only
building the panel again gives the controls of the current value. -/
theorem tuning_controls_fixed_at_construction (p : Store) (values : List String) :
    ((TuningView.build p).writeMethods values).layout = TuningPanel.construct p
    ∧ TuningPanel.controllerSpecific ((TuningView.build p).writeMethods values).layout
        = TuningPanel.controllerSpecific (TuningPanel.construct p)
    ∧ (∀ value : String,
        ((TuningView.build p).writeMethods (values ++ [value])).params.get "LateralControlMethod"
          = value)
    ∧ (TuningView.build ((TuningView.build p).writeMethods values).params).layout
        = TuningPanel.construct ((TuningView.build p).writeMethods values).params := by
  have h := TuningView.writeMethods_layout (TuningView.build p) values
  refine ⟨h, by rw [h]; rfl, ?_, rfl⟩
  intro value
  simp [TuningView.writeMethods, TuningView.writeMethod, Store.put, Store.get]

theorem SoftwarePanel.updateLabels_fs_watch (env : Env) (w : World) :
    (SoftwarePanel.updateLabels env w).world.software.fs_watch = w.software.fs_watch := by
  by_cases h : 19 ≤ (utf8 (w.params.get "GitRemote")).length
  · rw [SoftwarePanel.updateLabels_of_long_remote env w h]; rfl
  · rw [SoftwarePanel.updateLabels_of_short_remote env w (by omega)]; rfl

/-- C12, as stated, fails: after the update button has been pressed with
`IsOffroad` set, the `fileChanged` callback for the `LastUpdateTime` file, and
the one for `UpdateFailedCount` with a count of 1, both leave the two
registered paths in the watched set. -/
theorem watch_kept_after_completion_signal :
    (SoftwarePanel.updateBtn_released Env.inert true World.offroad).world.software.fs_watch
      = ["/data/params/d/LastUpdateTime", "/data/params/d/UpdateFailedCount"]
    ∧ (SoftwarePanel.fileChanged Env.inert "/data/params/d/LastUpdateTime"
        (SoftwarePanel.updateBtn_released Env.inert true World.offroad).world).world.software.fs_watch
      = ["/data/params/d/LastUpdateTime", "/data/params/d/UpdateFailedCount"]
    ∧ (SoftwarePanel.fileChanged Env.inert "/data/params/d/UpdateFailedCount"
        World.updateFailed).world.software.lastUpdateLbl = "failed to fetch update"
    ∧ (SoftwarePanel.fileChanged Env.inert "/data/params/d/UpdateFailedCount"
        World.updateFailed).world.software.fs_watch
      = ["/data/params/d/LastUpdateTime", "/data/params/d/UpdateFailedCount"] := by
  refine ⟨by decide, by decide, by decide, by decide⟩

/-- C12, amended: the `fileChanged` callback never removes a watch target:
for every path and store the watched set after the callback is the watched
set before it, and a press of the update button only ever adds to it. -/
theorem fileChanged_keeps_watches (env : Env) (path : String) (answer : Bool) (w : World) :
    (SoftwarePanel.fileChanged env path w).world.software.fs_watch = w.software.fs_watch
    ∧ w.software.fs_watch
        ⊆ (SoftwarePanel.updateBtn_released env answer w).world.software.fs_watch := by
  constructor
  · unfold SoftwarePanel.fileChanged
    simp only []
    split
    · rfl
    · split
      · exact SoftwarePanel.updateLabels_fs_watch env w
      · rfl
  · intro x hx
    by_cases h : w.params.getBool "IsOffroad" = true <;> cases answer <;>
      simp [SoftwarePanel.updateBtn_released, substr_zero, Outcome.world, h, World.addPath,
        World.system, World.systemCall, World.confirm, World.log] <;>
      (repeat' split) <;> simp [hx]

/-- C13, as stated, fails: with `init_param.sh` returning status 1, the
confirmed "Parameter Initialization" handler leaves exactly the trace and the
panel it leaves when the script returns 0: the dialog, the script, and no
message. -/
theorem failed_script_shows_no_message :
    (World.executeCall Env.failing (World.ofStore Store.empty) "/data/openpilot/init_param.sh").1 = 1
    ∧ (World.executeCall Env.inert (World.ofStore Store.empty) "/data/openpilot/init_param.sh").1 = 0
    ∧ (DevicePanel.paraminit_btn_released Env.failing true (World.ofStore Store.empty)).trace
        = [.confirm "Reset the parameters to their initial state. Are you sure you want to proceed?",
           .processExecute "/data/openpilot/init_param.sh"]
    ∧ (DevicePanel.paraminit_btn_released Env.failing true (World.ofStore Store.empty)).trace
        = (DevicePanel.paraminit_btn_released Env.inert true (World.ofStore Store.empty)).trace
    ∧ (DevicePanel.paraminit_btn_released Env.failing true (World.ofStore Store.empty)).software
        = (DevicePanel.paraminit_btn_released Env.inert true (World.ofStore Store.empty)).software := by
  refine ⟨rfl, rfl, by decide, by decide, by decide⟩

/-- C13, amended: the handlers drop the exit status of the process or script
they run: replacing the exit statuses of the environment by any others leaves
the outcome of every guarded handler, and of the update handler, the same, and
no handler adds an alert to the trace. -/
theorem exit_status_is_ignored (env : Env) (status : String → Store → Int)
    (b : GuardedButton) (answer : Bool) (w : World) :
    b.released { env with exitStatus := status } answer w = b.released env answer w
    ∧ SoftwarePanel.updateBtn_released { env with exitStatus := status } answer w
        = SoftwarePanel.updateBtn_released env answer w
    ∧ (∀ text, (b.released env answer w).trace.count (.alert text) = w.trace.count (.alert text))
    ∧ (∀ text, (SoftwarePanel.updateBtn_released env answer w).world.trace.count (.alert text)
        = w.trace.count (.alert text)) := by
  refine ⟨by cases b <;> rfl, rfl, ?_, ?_⟩
  · intro text
    cases b <;> cases answer <;>
      simp [GuardedButton.released, DevicePanel.retrainingBtn_released,
        DevicePanel.uninstallBtn_released, DevicePanel.calinit_btn_released,
        DevicePanel.paraminit_btn_released, DevicePanel.presetoneload_btn_released,
        DevicePanel.presetonesave_btn_released, DevicePanel.presettwoload_btn_released,
        DevicePanel.presettwosave_btn_released, DevicePanel.reboot_btn_released,
        DevicePanel.poweroff_btn_released, SoftwarePanel.gitresetbtn_released,
        SoftwarePanel.gitpullcanceltbtn_released, SoftwarePanel.pandaflashingtbtn_released,
        UserPanel.recorddelbtn_released, UserPanel.realdatadelbtn_released,
        UserPanel.calokbtn_released, UserPanel.peditbtn_released,
        World.confirm, World.log, World.remove, World.putBool, World.system, World.systemCall,
        World.execute, World.executeCall, List.count_cons]
  · intro text
    by_cases h : w.params.getBool "IsOffroad" = true <;> cases answer <;>
      simp [SoftwarePanel.updateBtn_released, substr_zero, Outcome.world, h, World.addPath,
        World.system, World.systemCall, World.confirm, World.log, List.count_cons]

/-- C14, as stated, fails: two confirmed presses of "Calibration Reset" run
the guarded action twice, so two reboots are scheduled; likewise two confirmed
presses of "Reboot" call `Hardware::reboot` twice. -/
theorem two_confirmed_presses_act_twice :
    (DevicePanel.calinit_btn_released true
        (DevicePanel.calinit_btn_released true (World.ofStore Store.empty))).trace
      = [.confirm "Are you sure you want to reset calibration? The device will automatically reboot.",
         .paramRemove "CalibrationParams", .paramRemove "LiveParameters", .singleShot 1000 .reboot,
         .confirm "Are you sure you want to reset calibration? The device will automatically reboot.",
         .paramRemove "CalibrationParams", .paramRemove "LiveParameters", .singleShot 1000 .reboot]
    ∧ (DevicePanel.calinit_btn_released true
        (DevicePanel.calinit_btn_released true (World.ofStore Store.empty))).trace.count
          (.singleShot 1000 .reboot) = 2
    ∧ (DevicePanel.reboot_btn_released true
        (DevicePanel.reboot_btn_released true (World.ofStore Store.empty))).trace.count
          (.hardware .reboot) = 2 := by
  refine ⟨by decide, by decide, by decide⟩

/-- C14, amended: no handler keeps track of an action in flight, so every
confirmed press runs the guarded action once more: after `n` confirmed presses
of "Calibration Reset" the trace holds `n` more scheduled reboots, and after
`n` confirmed presses of "Reboot" `n` more calls of `Hardware::reboot`. -/
theorem confirmed_presses_act_each_time (n : Nat) (w : World) :
    ((DevicePanel.calinit_btn_released true)^[n] w).trace.count (.singleShot 1000 .reboot)
      = w.trace.count (.singleShot 1000 .reboot) + n
    ∧ ((DevicePanel.reboot_btn_released true)^[n] w).trace.count (.hardware .reboot)
      = w.trace.count (.hardware .reboot) + n := by
  induction n with
  | zero => exact ⟨rfl, rfl⟩
  | succ k ih =>
    obtain ⟨h1, h2⟩ := ih
    constructor
    · rw [Function.iterate_succ_apply']
      simp only [DevicePanel.calinit_btn_released, World.confirm, World.log, World.remove, if_true]
      simp [List.count_cons] at h1 ⊢
      omega
    · rw [Function.iterate_succ_apply']
      simp only [DevicePanel.reboot_btn_released, World.confirm, World.log, if_true]
      simp [List.count_cons] at h1 h2 ⊢
      omega

/-! ### Steppers, calibration text, toggle frames, presets -/

/-- C15: a stepper that shows what the store holds, within its bounds and
with a positive step, leaves binding and store as they are when the input
`min - step` is rejected, and also, rejecting or clamping, when minus is
pressed at the minimum; after any input the store holds a value between `min`
and `max`, so the stored value never exceeds `max`. -/
theorem stepper_stays_within_bounds (b : NumericBinding) (p : Store)
    (hstep : 0 < b.step) (hc : b.Coherent p) :
    (b.policy = .reject → b.onUserInput (b.min - b.step) p = (b, p))
    ∧ (b.value = b.min → b.minus p = (b, p))
    ∧ (∀ n : Int, (b.onUserInput n p).1.Coherent (b.onUserInput n p).2)
    ∧ (∀ n : Int, ∃ v : Int, (b.onUserInput n p).2 b.key = some (toString v)
        ∧ b.min ≤ v ∧ v ≤ b.max) := by
  obtain ⟨hkey, hmin, hmax⟩ := hc
  have hout : b.inDomain (b.min - b.step) = false := by
    simp [NumericBinding.inDomain]; intro h; omega
  have hinv : ∀ n : Int, (b.onUserInput n p).1.Coherent (b.onUserInput n p).2
      ∧ (b.onUserInput n p).1.key = b.key ∧ (b.onUserInput n p).1.min = b.min
      ∧ (b.onUserInput n p).1.max = b.max := by
    intro n
    unfold NumericBinding.onUserInput
    by_cases hd : b.inDomain n = true
    · rw [if_pos hd]
      simp only [NumericBinding.inDomain, Bool.and_eq_true, decide_eq_true_eq] at hd
      exact ⟨⟨by simp [Store.put], hd.1, hd.2⟩, rfl, rfl, rfl⟩
    · rw [if_neg hd]
      have hlo : b.min ≤ b.clampValue n := by
        unfold NumericBinding.clampValue; split_ifs <;> omega
      have hhi : b.clampValue n ≤ b.max := by
        unfold NumericBinding.clampValue; split_ifs <;> omega
      cases hp : b.policy with
      | reject => exact ⟨⟨hkey, hmin, hmax⟩, rfl, rfl, rfl⟩
      | clamp => exact ⟨⟨by simp [Store.put], hlo, hhi⟩, rfl, rfl, rfl⟩
  refine ⟨?_, ?_, fun n => (hinv n).1, ?_⟩
  · intro hp
    simp [NumericBinding.onUserInput, hout, hp]
  · intro hv
    have hcl : b.clampValue (b.min - b.step) = b.min := by
      unfold NumericBinding.clampValue; split_ifs <;> omega
    have hp2 : p.put b.key (toString b.min) = p := by
      funext k
      by_cases hk : k = b.key
      · subst hk; simp [Store.put, hkey, hv]
      · simp [Store.put, hk]
    have hb : { b with value := b.min } = b := by
      cases b; simp_all
    unfold NumericBinding.minus NumericBinding.onUserInput
    rw [hv, hout, hcl, hp2, hb]
    cases b.policy <;> rfl
  · intro n
    obtain ⟨⟨h1, h2, h3⟩, hk, hmn, hmx⟩ := hinv n
    exact ⟨(b.onUserInput n p).1.value, by rw [← hk]; exact h1, by rw [← hmn]; exact h2,
      by rw [← hmx]; exact h3⟩

/-- Witness for C15: a clamping stepper over 0 to 10 standing at 0. -/
theorem stepper_stays_within_bounds_witness :
    (0 < NumericBinding.atMinimum.step
      ∧ NumericBinding.atMinimum.Coherent (Store.empty.put "OpkrAutoShutdown" "0"))
    ∧ NumericBinding.atMinimum.minus (Store.empty.put "OpkrAutoShutdown" "0")
        = (NumericBinding.atMinimum, Store.empty.put "OpkrAutoShutdown" "0") :=
  ⟨⟨by decide, by decide⟩,
   (stepper_stays_within_bounds NumericBinding.atMinimum (Store.empty.put "OpkrAutoShutdown" "0")
      (by decide) (by decide)).2.1 rfl⟩

theorem String.append_ne_self_of_length_pos (a b : String) (h : 0 < b.length) : a ++ b ≠ a := by
  intro heq
  have := congrArg String.length heq
  rw [String.length_append] at this
  omega

/-- C16: in both "Reset Calibration" handlers (the blob reader raising only
`kj::Exception`), when `CalibrationParams` is non-empty, reads as a
LiveCalibration and has a nonzero calStatus, the text is the base text followed
by " Your device is pointed P° d1 and Y° d2.", where P and Y are the renderings
by `QString::number(_, 'g', 1)` of `|rpyCalib[1] * (180 / M_PI)|` and
`|rpyCalib[2] * (180 / M_PI)|`, d1 is "↑" iff the pitch `rpyCalib[1] * (180 / M_PI)`
is positive and "↓" otherwise, d2 is "→" iff the yaw `rpyCalib[2] * (180 / M_PI)`
is positive and "←" otherwise; in every other case the text is exactly the
base text; so the text differs from the base text iff the three conditions
hold. The product with `180 / M_PI` keeps the sign of the angle and scales its
absolute value, so the arrows are those of the signs of `rpyCalib[1]` and
`rpyCalib[2]`. -/
theorem calibration_sentence_iff_valid (env : Env) (answer : Bool) (w : World)
    (hkj : ∀ e, env.readLiveCalibration (w.params.get "CalibrationParams") = .error e →
      ∃ d, e = .kj d) :
    (∀ calib, w.params.get "CalibrationParams" ≠ "" →
        env.readLiveCalibration (w.params.get "CalibrationParams") = .ok calib →
        calib.calStatus ≠ 0 →
        (DevicePanel.resetCalibBtn_released env answer w).world.trace.getLast?
          = some (.alert ("[Reference value: within L/R 4° and UP/DN 5°]"
              ++ " Your device is pointed "
              ++ env.number_g1 |calib.rpyCalib 1 * (180 / M_PI)| ++ "° "
              ++ (if calib.rpyCalib 1 * (180 / M_PI) > 0 then "↑" else "↓") ++ " and "
              ++ env.number_g1 |calib.rpyCalib 2 * (180 / M_PI)| ++ "° "
              ++ (if calib.rpyCalib 2 * (180 / M_PI) > 0 then "→" else "←") ++ "."))
        ∧ (DevicePanel.resetCalibBtn_showDescription env w).world.resetCalibBtnDescription
          = DevicePanel.resetCalibDesc
              ++ " Your device is pointed "
              ++ env.number_g1 |calib.rpyCalib 1 * (180 / M_PI)| ++ "° "
              ++ (if calib.rpyCalib 1 * (180 / M_PI) > 0 then "↑" else "↓") ++ " and "
              ++ env.number_g1 |calib.rpyCalib 2 * (180 / M_PI)| ++ "° "
              ++ (if calib.rpyCalib 2 * (180 / M_PI) > 0 then "→" else "←") ++ ".")
    ∧ ((¬ ∃ calib, w.params.get "CalibrationParams" ≠ ""
          ∧ env.readLiveCalibration (w.params.get "CalibrationParams") = .ok calib
          ∧ calib.calStatus ≠ 0) →
        (DevicePanel.resetCalibBtn_released env answer w).world.trace.getLast?
          = some (.alert "[Reference value: within L/R 4° and UP/DN 5°]")
        ∧ (DevicePanel.resetCalibBtn_showDescription env w).world.resetCalibBtnDescription
          = DevicePanel.resetCalibDesc)
    ∧ ((DevicePanel.resetCalibBtn_showDescription env w).world.resetCalibBtnDescription
          ≠ DevicePanel.resetCalibDesc
        ↔ ∃ calib, w.params.get "CalibrationParams" ≠ ""
          ∧ env.readLiveCalibration (w.params.get "CalibrationParams") = .ok calib
          ∧ calib.calStatus ≠ 0)
    ∧ ((DevicePanel.resetCalibBtn_released env answer w).world.trace.getLast?
          ≠ some (.alert "[Reference value: within L/R 4° and UP/DN 5°]")
        ↔ ∃ calib, w.params.get "CalibrationParams" ≠ ""
          ∧ env.readLiveCalibration (w.params.get "CalibrationParams") = .ok calib
          ∧ calib.calStatus ≠ 0)
    ∧ (∀ calib : LiveCalibration, ∀ i : Nat,
        (calib.rpyCalib i * (180 / M_PI) > 0 ↔ calib.rpyCalib i > 0)
        ∧ |calib.rpyCalib i * (180 / M_PI)| = |calib.rpyCalib i| * (180 / M_PI)) := by
  have hpos : (0 : ℚ) < 180 / M_PI := by unfold M_PI; norm_num
  have hvalid : ∀ calib, w.params.get "CalibrationParams" ≠ "" →
      env.readLiveCalibration (w.params.get "CalibrationParams") = .ok calib →
      calib.calStatus ≠ 0 →
      (DevicePanel.resetCalibBtn_released env answer w).world.trace.getLast?
        = some (.alert ("[Reference value: within L/R 4° and UP/DN 5°]"
            ++ " Your device is pointed "
            ++ env.number_g1 |calib.rpyCalib 1 * (180 / M_PI)| ++ "° "
            ++ (if calib.rpyCalib 1 * (180 / M_PI) > 0 then "↑" else "↓") ++ " and "
            ++ env.number_g1 |calib.rpyCalib 2 * (180 / M_PI)| ++ "° "
            ++ (if calib.rpyCalib 2 * (180 / M_PI) > 0 then "→" else "←") ++ "."))
      ∧ (DevicePanel.resetCalibBtn_showDescription env w).world.resetCalibBtnDescription
        = DevicePanel.resetCalibDesc
            ++ " Your device is pointed "
            ++ env.number_g1 |calib.rpyCalib 1 * (180 / M_PI)| ++ "° "
            ++ (if calib.rpyCalib 1 * (180 / M_PI) > 0 then "↑" else "↓") ++ " and "
            ++ env.number_g1 |calib.rpyCalib 2 * (180 / M_PI)| ++ "° "
            ++ (if calib.rpyCalib 2 * (180 / M_PI) > 0 then "→" else "←") ++ "." := by
    intro calib h0 hr hs
    constructor
    · simp [DevicePanel.resetCalibBtn_released, h0, hr, hs, Outcome.world, World.log]
    · simp [DevicePanel.resetCalibBtn_showDescription, h0, hr, hs, Outcome.world]
  have hbase : (¬ ∃ calib, w.params.get "CalibrationParams" ≠ ""
        ∧ env.readLiveCalibration (w.params.get "CalibrationParams") = .ok calib
        ∧ calib.calStatus ≠ 0) →
      (DevicePanel.resetCalibBtn_released env answer w).world.trace.getLast?
        = some (.alert "[Reference value: within L/R 4° and UP/DN 5°]")
      ∧ (DevicePanel.resetCalibBtn_showDescription env w).world.resetCalibBtnDescription
        = DevicePanel.resetCalibDesc := by
    intro hno
    by_cases h0 : w.params.get "CalibrationParams" = ""
    · constructor
      · simp [DevicePanel.resetCalibBtn_released, h0, Outcome.world, World.log]
      · simp [DevicePanel.resetCalibBtn_showDescription, h0, Outcome.world]
    · cases hr : env.readLiveCalibration (w.params.get "CalibrationParams") with
      | error e =>
        obtain ⟨d, rfl⟩ := hkj e hr
        constructor
        · simp [DevicePanel.resetCalibBtn_released, h0, hr, Outcome.world, World.log]
        · simp [DevicePanel.resetCalibBtn_showDescription, h0, hr, Outcome.world, World.log]
      | ok calib =>
        have hs : calib.calStatus = 0 := by
          by_contra hne
          exact hno ⟨calib, h0, hr, hne⟩
        constructor
        · simp [DevicePanel.resetCalibBtn_released, h0, hr, hs, Outcome.world, World.log]
        · simp [DevicePanel.resetCalibBtn_showDescription, h0, hr, hs, Outcome.world]
  refine ⟨hvalid, hbase, ?_, ?_, ?_⟩
  rotate_left 2
  · intro calib i
    refine ⟨?_, ?_⟩
    · constructor
      · intro h
        by_contra hn
        have : calib.rpyCalib i * (180 / M_PI) ≤ 0 :=
          mul_nonpos_of_nonpos_of_nonneg (not_lt.mp hn) hpos.le
        exact absurd h (not_lt.mpr this)
      · intro h; exact mul_pos h hpos
    · rw [abs_mul, abs_of_pos hpos]
  · constructor
    · intro hne
      by_contra hno
      exact hne (hbase hno).2
    · rintro ⟨calib, h0, hr, hs⟩
      rw [(hvalid calib h0 hr hs).2]
      simp only [String.append_assoc]
      apply String.append_ne_self_of_length_pos
      simp only [String.length_append]
      have : 0 < " Your device is pointed ".length := by decide
      omega
  · constructor
    · intro hne
      by_contra hno
      exact hne (hbase hno).1
    · rintro ⟨calib, h0, hr, hs⟩
      rw [(hvalid calib h0 hr hs).1]
      intro heq
      have heq2 := Effect.alert.inj (Option.some.inj heq)
      revert heq2
      simp only [String.append_assoc]
      apply String.append_ne_self_of_length_pos
      simp only [String.length_append]
      have : 0 < " Your device is pointed ".length := by decide
      omega

/-- Witness for C16: a blob read as a calibrated device pitched up by 1/50 rad
and yawed left by 1/100 rad, with `QString::number(_, 'g', 1)` taken as
`format_g1`: the sentence is appended, with the angles 1.15° and 0.57° rendered
to one digit and the arrows of those signs. -/
theorem calibration_sentence_iff_valid_witness :
    (∀ e, Env.calibrated.readLiveCalibration (World.garbledCalibration.params.get "CalibrationParams")
        = .error e → ∃ d, e = .kj d)
    ∧ (DevicePanel.resetCalibBtn_showDescription Env.calibrated
          World.garbledCalibration).world.resetCalibBtnDescription
        ≠ DevicePanel.resetCalibDesc
    ∧ (DevicePanel.resetCalibBtn_showDescription Env.calibrated
          World.garbledCalibration).world.resetCalibBtnDescription
        = DevicePanel.resetCalibDesc ++ " Your device is pointed 1° ↑ and 0.6° ←."
    ∧ (DevicePanel.resetCalibBtn_released Env.calibrated true
          World.garbledCalibration).world.trace.getLast?
        = some (.alert
            "[Reference value: within L/R 4° and UP/DN 5°] Your device is pointed 1° ↑ and 0.6° ←.") := by
  have hkj : ∀ e, Env.calibrated.readLiveCalibration
      (World.garbledCalibration.params.get "CalibrationParams") = .error e → ∃ d, e = .kj d :=
    fun _ h => nomatch h
  have hthm := calibration_sentence_iff_valid Env.calibrated true World.garbledCalibration hkj
  have hval := hthm.1 LiveCalibration.pitchedUp (by decide) rfl (by decide)
  have n1 : Env.calibrated.number_g1 |LiveCalibration.pitchedUp.rpyCalib 1 * (180 / M_PI)| = "1" := by
    with_unfolding_all decide
  have n2 : Env.calibrated.number_g1 |LiveCalibration.pitchedUp.rpyCalib 2 * (180 / M_PI)| = "0.6" := by
    with_unfolding_all decide
  have p1 : LiveCalibration.pitchedUp.rpyCalib 1 * (180 / M_PI) > 0 := by
    with_unfolding_all decide
  have p2 : ¬ (LiveCalibration.pitchedUp.rpyCalib 2 * (180 / M_PI) > 0) := by
    with_unfolding_all decide
  simp only [n1, n2, if_pos p1, if_neg p2] at hval
  refine ⟨hkj, hthm.2.2.1.mpr ⟨_, by decide, rfl, by decide⟩, ?_, ?_⟩
  · rw [hval.2]; rfl
  · rw [hval.1]; rfl

theorem Toggle.ctorKey_injective (t t' : Toggle) (h : t'.ctorKey = t.ctorKey) : t' = t := by
  cases t <;> cases t' <;> first | rfl | exact absurd h (by decide)

/-- C17: the toggleFlipped handler of every toggle class of opkr.h makes one
store write, at the toggle's own key, and leaves the value at every other key
as it was; and two toggle classes bound to the same key are the same class. -/
theorem toggle_owns_one_key (t : Toggle) (s : Int) (w : World) :
    (∀ k, k ≠ t.ctorKey → (t.toggleFlipped s w).params k = w.params k)
    ∧ (t.toggleFlipped s w).trace = w.trace ++ [.paramPutBool t.ctorKey (decide (s ≠ 0))]
    ∧ (∀ t' : Toggle, t' ≠ t → t'.ctorKey ≠ t.ctorKey)
    ∧ (∀ t' : Toggle, t' ≠ t →
        (t.toggleFlipped s w).params.getBool t'.ctorKey = w.params.getBool t'.ctorKey) := by
  have hframe : ∀ k, k ≠ t.ctorKey → (t.toggleFlipped s w).params k = w.params k := by
    intro k hk
    rw [Toggle.toggleFlipped_params, ← Toggle.ctorKey_eq_handlerKey]
    simp [Store.putBool, Store.put, hk]
  have hinj : ∀ t' : Toggle, t' ≠ t → t'.ctorKey ≠ t.ctorKey :=
    fun t' hne hk => hne (Toggle.ctorKey_injective t t' hk)
  refine ⟨hframe, ?_, hinj, ?_⟩
  · rw [Toggle.ctorKey_eq_handlerKey]
    by_cases h : s = 0 <;> simp [Toggle.toggleFlipped, World.putBool, h]
  · intro t' hne
    simp only [Store.getBool, Store.get]
    rw [hframe _ (hinj t' hne)]

/-- Witness for C17: a flip of `KRDateToggle` leaves the value stored for
`KRTimeToggle`. -/
theorem toggle_owns_one_key_witness :
    Toggle.KRTimeToggle ≠ Toggle.KRDateToggle
    ∧ "KRTimeShow" ≠ Toggle.KRDateToggle.ctorKey
    ∧ (Toggle.KRDateToggle.toggleFlipped 1 (World.ofStore (Store.empty.putBool "KRTimeShow" true))).params
        "KRTimeShow" = some "1"
    ∧ Toggle.KRTimeToggle.ctorKey ≠ Toggle.KRDateToggle.ctorKey :=
  have h := toggle_owns_one_key Toggle.KRDateToggle 1
    (World.ofStore (Store.empty.putBool "KRTimeShow" true))
  ⟨by decide, by decide, (h.1 "KRTimeShow" (by decide)).trans (by decide),
   h.2.2.1 Toggle.KRTimeToggle (by decide)⟩

/-- C18 at its failing input: a confirmed press of "Load Preset 2" asks "Are
you sure you want to save Preset 2?", the very prompt of "Save Preset 2", and
then runs `load_preset2.sh`: the prompt names "save", the script "load". -/
theorem load_preset_two_prompt_names_save :
    (DevicePanel.presettwoload_btn_released Env.inert true (World.ofStore Store.empty)).trace
      = [.confirm "Are you sure you want to save Preset 2?",
         .processExecute "/data/openpilot/load_preset2.sh"]
    ∧ (DevicePanel.presettwosave_btn_released Env.inert true (World.ofStore Store.empty)).trace
      = [.confirm "Are you sure you want to save Preset 2?",
         .processExecute "/data/openpilot/save_preset2.sh"]
    ∧ contains "Are you sure you want to save Preset 2?" "load" = false
    ∧ contains "Are you sure you want to save Preset 2?" "save" = true
    ∧ contains "/data/openpilot/load_preset2.sh" "load" = true
    ∧ (DevicePanel.presetoneload_btn_released Env.inert true (World.ofStore Store.empty)).trace
      = [.confirm "Are you sure you want to load Preset 1?",
         .processExecute "/data/openpilot/load_preset1.sh"] := by
  refine ⟨by decide, by decide, by decide, by decide, by decide, by decide⟩

/-- C19, as stated, fails: on a store without `IsOffroad` a confirmed press of
"Check and Apply Update" registers no watch target, while it still writes the
`LastUpdateTime` file. -/
theorem update_press_onroad_registers_nothing :
    (SoftwarePanel.updateBtn_released Env.inert true (World.ofStore Store.empty)).world.software.fs_watch
      = []
    ∧ (SoftwarePanel.updateBtn_released Env.inert true (World.ofStore Store.empty)).world.trace
      = [.system "/data/openpilot/gitcommit.sh",
         .system "date '+%F %T' > /data/params/d/LastUpdateTime",
         .confirm "Local: \nRemote: \nLocal and Remote match. No update required.",
         .system "/data/openpilot/gitpull.sh"] := by
  refine ⟨by decide, by decide⟩

/-- C19, amended: when `IsOffroad` is set, a press of "Check and Apply
Update" hands the `LastUpdateTime` and `UpdateFailedCount` files under the
params path to the watcher, and where the params path is `/data/params` the
`LastUpdateTime` file the handler then writes is one of them; when `IsOffroad`
is not set the watched set stays as it was. -/
theorem update_press_watches_when_offroad (env : Env) (answer : Bool) (w : World) :
    (w.params.getBool "IsOffroad" = true →
        (env.getParamsPath ++ "/d/LastUpdateTime")
          ∈ (SoftwarePanel.updateBtn_released env answer w).world.software.fs_watch
        ∧ (env.getParamsPath ++ "/d/UpdateFailedCount")
          ∈ (SoftwarePanel.updateBtn_released env answer w).world.software.fs_watch
        ∧ (env.getParamsPath = "/data/params" →
            "/data/params/d/LastUpdateTime"
              ∈ (SoftwarePanel.updateBtn_released env answer w).world.software.fs_watch))
    ∧ (w.params.getBool "IsOffroad" = false →
        (SoftwarePanel.updateBtn_released env answer w).world.software.fs_watch
          = w.software.fs_watch)
    ∧ Effect.system "date '+%F %T' > /data/params/d/LastUpdateTime"
        ∈ (SoftwarePanel.updateBtn_released env answer w).world.trace := by
  have hon : w.params.getBool "IsOffroad" = true →
      (env.getParamsPath ++ "/d/LastUpdateTime")
        ∈ (SoftwarePanel.updateBtn_released env answer w).world.software.fs_watch
      ∧ (env.getParamsPath ++ "/d/UpdateFailedCount")
        ∈ (SoftwarePanel.updateBtn_released env answer w).world.software.fs_watch := by
    intro h
    constructor <;> cases answer <;>
      simp [SoftwarePanel.updateBtn_released, substr_zero, Outcome.world, h, World.addPath,
        World.system, World.systemCall, World.confirm, World.log] <;>
      (repeat' split) <;> simp_all
  refine ⟨fun h => ⟨(hon h).1, (hon h).2, fun hp => ?_⟩, ?_, ?_⟩
  · have := (hon h).1
    rw [hp] at this
    exact this
  · intro h
    cases answer <;>
      simp [SoftwarePanel.updateBtn_released, substr_zero, Outcome.world, h,
        World.system, World.systemCall, World.confirm, World.log]
  · by_cases h : w.params.getBool "IsOffroad" = true <;> cases answer <;>
      simp [SoftwarePanel.updateBtn_released, substr_zero, Outcome.world, h, World.addPath,
        World.system, World.systemCall, World.confirm, World.log]

/-- Witness for C19: the store of `World.offroad`, params path `/data/params`. -/
theorem update_press_watches_when_offroad_witness :
    (World.offroad.params.getBool "IsOffroad" = true ∧ Env.inert.getParamsPath = "/data/params")
    ∧ "/data/params/d/LastUpdateTime"
        ∈ (SoftwarePanel.updateBtn_released Env.inert true World.offroad).world.software.fs_watch :=
  ⟨⟨by decide, rfl⟩,
   ((update_press_watches_when_offroad Env.inert true World.offroad).1 (by decide)).2.2 rfl⟩

/-- C20: neither handler of the "Reset Calibration" control writes the
parameter store: for every store, environment and alert result the store after
`released`, and after `showDescription`, is the store before, and neither adds
a store write or removal to the trace; `CalibrationParams` holds what it held. -/
theorem reset_calibration_leaves_store (env : Env) (answer : Bool) (w : World) :
    (DevicePanel.resetCalibBtn_released env answer w).world.params = w.params
    ∧ (DevicePanel.resetCalibBtn_showDescription env w).world.params = w.params
    ∧ (DevicePanel.resetCalibBtn_released env answer w).world.params "CalibrationParams"
        = w.params "CalibrationParams"
    ∧ (∀ key, (DevicePanel.resetCalibBtn_released env answer w).world.trace.count (.paramRemove key)
        = w.trace.count (.paramRemove key))
    ∧ (∀ key, (DevicePanel.resetCalibBtn_showDescription env w).world.trace.count (.paramRemove key)
        = w.trace.count (.paramRemove key)) := by
  have h1 : (DevicePanel.resetCalibBtn_released env answer w).world.params = w.params := by
    unfold DevicePanel.resetCalibBtn_released
    simp only []
    repeat' split
    all_goals simp [Outcome.world, World.log]
  have h2 : (DevicePanel.resetCalibBtn_showDescription env w).world.params = w.params := by
    unfold DevicePanel.resetCalibBtn_showDescription
    simp only []
    repeat' split
    all_goals simp [Outcome.world, World.log]
  refine ⟨h1, h2, by rw [h1], ?_, ?_⟩
  · intro key
    unfold DevicePanel.resetCalibBtn_released
    simp only []
    repeat' split
    all_goals simp [Outcome.world, World.log, List.count_cons]
  · intro key
    unfold DevicePanel.resetCalibBtn_showDescription
    simp only []
    repeat' split
    all_goals simp [Outcome.world, World.log, List.count_cons]

/-! ### Calibration reset, the two calibration texts, update text, file changes -/

/-- C21: a confirmed press of "Calibration Reset" removes `CalibrationParams`
and `LiveParameters` from the store and nothing else, leaves the value of
every other key as it was, and schedules one `Hardware::reboot` by a 1000 ms
single-shot timer; the handler itself makes no call of `Hardware::reboot`. -/
theorem calibration_reset_removes_two_keys (w : World) :
    (DevicePanel.calinit_btn_released true w).params "CalibrationParams" = none
    ∧ (DevicePanel.calinit_btn_released true w).params "LiveParameters" = none
    ∧ (∀ k, k ≠ "CalibrationParams" → k ≠ "LiveParameters" →
        (DevicePanel.calinit_btn_released true w).params k = w.params k)
    ∧ (∃ text, (DevicePanel.calinit_btn_released true w).trace
        = w.trace ++ [.confirm text, .paramRemove "CalibrationParams",
            .paramRemove "LiveParameters", .singleShot 1000 .reboot])
    ∧ (∀ msec call, (DevicePanel.calinit_btn_released true w).trace.count (.singleShot msec call)
        = w.trace.count (.singleShot msec call)
          + (if msec = 1000 ∧ call = HardwareCall.reboot then 1 else 0))
    ∧ (∀ call, (DevicePanel.calinit_btn_released true w).trace.count (.hardware call)
        = w.trace.count (.hardware call)) := by
  refine ⟨?_, ?_, ?_,
    ⟨"Are you sure you want to reset calibration? The device will automatically reboot.", ?_⟩,
    ?_, ?_⟩
  · simp [DevicePanel.calinit_btn_released, World.confirm, World.log, World.remove, Store.remove]
  · simp [DevicePanel.calinit_btn_released, World.confirm, World.log, World.remove, Store.remove]
  · intro k h1 h2
    simp [DevicePanel.calinit_btn_released, World.confirm, World.log, World.remove, Store.remove,
      h1, h2]
  · simp [DevicePanel.calinit_btn_released, World.confirm, World.log, World.remove]
  · intro msec call
    by_cases h : msec = 1000 ∧ call = HardwareCall.reboot
    · obtain ⟨rfl, rfl⟩ := h
      simp [DevicePanel.calinit_btn_released, World.confirm, World.log, World.remove,
        List.count_cons]
    · have hne : ¬ (Effect.singleShot 1000 HardwareCall.reboot = Effect.singleShot msec call) := by
        intro heq
        injection heq with h1 h2
        exact h ⟨h1.symm, h2.symm⟩
      simp [DevicePanel.calinit_btn_released, World.confirm, World.log, World.remove,
        List.count_cons, h, hne]
  · intro call
    simp [DevicePanel.calinit_btn_released, World.confirm, World.log, World.remove,
      List.count_cons]

/-- Witness for C21: a store holding both keys and a third one. -/
theorem calibration_reset_removes_two_keys_witness :
    ("DongleId" ≠ "CalibrationParams" ∧ "DongleId" ≠ "LiveParameters")
    ∧ (DevicePanel.calinit_btn_released true
        (World.ofStore (((Store.empty.put "CalibrationParams" "x").put "LiveParameters" "y").put
          "DongleId" "d"))).params "DongleId" = some "d"
    ∧ (DevicePanel.calinit_btn_released true
        (World.ofStore (((Store.empty.put "CalibrationParams" "x").put "LiveParameters" "y").put
          "DongleId" "d"))).params "CalibrationParams" = none :=
  have h := calibration_reset_removes_two_keys
    (World.ofStore (((Store.empty.put "CalibrationParams" "x").put "LiveParameters" "y").put
      "DongleId" "d"))
  ⟨⟨by decide, by decide⟩, (h.2.2.1 "DongleId" (by decide) (by decide)).trans (by decide), h.1⟩

/-- C22: the two "Reset Calibration" handlers end alike (both return, or the
same exception leaves both), and when they return, the text of the alert and
the description set are their fixed texts followed by the same appended part,
one function of the `CalibrationParams` blob: the two texts differ only in
"[Reference value: within L/R 4° and UP/DN 5°]" against the static
description. -/
theorem calibration_texts_share_appended_part (env : Env) (answer : Bool) (w : World) :
    (DevicePanel.resetCalibBtn_released env answer w).raised
      = (DevicePanel.resetCalibBtn_showDescription env w).raised
    ∧ ((DevicePanel.resetCalibBtn_released env answer w).raised = none →
        (DevicePanel.resetCalibBtn_released env answer w).world.trace.getLast?
          = some (.alert ("[Reference value: within L/R 4° and UP/DN 5°]"
              ++ DevicePanel.appendedText env (w.params.get "CalibrationParams")))
        ∧ (DevicePanel.resetCalibBtn_showDescription env w).world.resetCalibBtnDescription
          = DevicePanel.resetCalibDesc
              ++ DevicePanel.appendedText env (w.params.get "CalibrationParams")) := by
  by_cases h0 : w.params.get "CalibrationParams" = ""
  · simp [DevicePanel.resetCalibBtn_released, DevicePanel.resetCalibBtn_showDescription,
      DevicePanel.appendedText, h0, Outcome.raised, Outcome.world, World.log]
  · cases hr : env.readLiveCalibration (w.params.get "CalibrationParams") with
    | error e =>
      cases e with
      | kj d =>
        simp [DevicePanel.resetCalibBtn_released, DevicePanel.resetCalibBtn_showDescription,
          DevicePanel.appendedText, h0, hr, Outcome.raised, Outcome.world, World.log]
      | out_of_range d =>
        simp [DevicePanel.resetCalibBtn_released, DevicePanel.resetCalibBtn_showDescription,
          DevicePanel.appendedText, h0, hr, Outcome.raised, Outcome.world, World.log]
    | ok calib =>
      by_cases hs : calib.calStatus = 0
      · simp [DevicePanel.resetCalibBtn_released, DevicePanel.resetCalibBtn_showDescription,
          DevicePanel.appendedText, h0, hr, hs, Outcome.raised, Outcome.world, World.log]
      · simp [DevicePanel.resetCalibBtn_released, DevicePanel.resetCalibBtn_showDescription,
          DevicePanel.appendedText, h0, hr, hs, Outcome.raised, Outcome.world, World.log,
          String.append_assoc, -String.reduceAppend]

/-- Witness for C22: a blob read as a calibrated device; both texts end in the
same sentence. -/
theorem calibration_texts_share_appended_part_witness :
    (DevicePanel.resetCalibBtn_released Env.calibrated true World.garbledCalibration).raised = none
    ∧ (DevicePanel.resetCalibBtn_released Env.calibrated true
          World.garbledCalibration).world.trace.getLast?
        = some (.alert ("[Reference value: within L/R 4° and UP/DN 5°]"
            ++ DevicePanel.appendedText Env.calibrated
                (World.garbledCalibration.params.get "CalibrationParams")))
    ∧ (DevicePanel.resetCalibBtn_showDescription Env.calibrated
          World.garbledCalibration).world.resetCalibBtnDescription
        = DevicePanel.resetCalibDesc
            ++ DevicePanel.appendedText Env.calibrated
                (World.garbledCalibration.params.get "CalibrationParams") :=
  have h := (calibration_texts_share_appended_part Env.calibrated true World.garbledCalibration).2 rfl
  ⟨rfl, h.1, h.2⟩

theorem decodeOne_ascii (b : Nat) (rest : List Nat) (h : b < 0x80) :
    decodeOne (b :: rest) = some (Char.ofNat b, 1) := by
  match rest with
  | [] => simp [decodeOne, h]
  | [_] => simp [decodeOne, h]
  | [_, _] => simp [decodeOne, h]
  | _ :: _ :: _ :: _ => simp [decodeOne, h]

theorem decodeUtf8_ascii (cs : List Char) (h : ∀ c ∈ cs, c.toNat < 0x80) (fuel : Nat)
    (hf : cs.length ≤ fuel) : decodeUtf8 fuel (cs.map Char.toNat) = cs := by
  induction cs generalizing fuel with
  | nil => cases fuel <;> rfl
  | cons c cs ih =>
    cases fuel with
    | zero => simp at hf
    | succ fuel =>
      have hc : c.toNat < 0x80 := h c (List.mem_cons_self _ _)
      simp only [List.map_cons, decodeUtf8, decodeOne_ascii _ _ hc, List.drop_succ_cons,
        List.drop_zero]
      rw [ih (fun c hc => h c (List.mem_cons_of_mem _ hc)) fuel (by simpa using hf)]
      simp [Char.ofNat_toNat]

theorem utf8_ascii (cs : List Char) (h : ∀ c ∈ cs, c.toNat < 0x80) :
    utf8 (String.mk cs) = cs.map Char.toNat := by
  induction cs with
  | nil => rfl
  | cons c cs ih =>
    have hc : c.toNat < 0x80 := h c (List.mem_cons_self _ _)
    have ih := ih (fun c hc => h c (List.mem_cons_of_mem _ hc))
    simp only [utf8, List.flatMap_cons, List.map_cons] at ih ⊢
    rw [ih]
    simp [utf8EncodeChar, hc]

theorem fromStdString_ascii (cs : List Char) (h : ∀ c ∈ cs, c.toNat < 0x80) :
    fromStdString (cs.map Char.toNat) = String.mk cs := by
  have hd : decodeUtf8 (cs.map Char.toNat).length (cs.map Char.toNat) = cs :=
    decodeUtf8_ascii cs h _ (by simp)
  unfold fromStdString
  split
  · rename_i rest heq
    cases cs with
    | nil => simp at heq
    | cons c cs =>
      have hc : c.toNat < 0x80 := h c (List.mem_cons_self _ _)
      simp only [List.map_cons, List.cons.injEq] at heq
      omega
  · rw [hd]

/-- On a value of ASCII characters the bytes and the characters coincide: the
decoding of the first `n` bytes is the first `n` characters. -/
theorem fromStdString_take_ascii (s : String) (n : Nat) (h : ∀ c ∈ s.data, c.toNat < 0x80) :
    fromStdString ((utf8 s).take n) = String.mk (s.data.take n) := by
  cases s with
  | mk cs =>
    rw [utf8_ascii cs h, ← List.map_take]
    exact fromStdString_ascii _ (fun c hc => h c (List.mem_of_mem_take hc))

theorem decodeOne_two (b0 b1 : Nat) (rest : List Nat) (h0 : 0xC0 ≤ b0) (h0' : b0 < 0xE0)
    (h1 : isContinuation b1 = true) (huc : 0x80 ≤ (b0 - 0xC0) * 64 + (b1 - 0x80)) :
    decodeOne (b0 :: b1 :: rest)
      = some (Char.ofNat ((b0 - 0xC0) * 64 + (b1 - 0x80)), 2) := by
  have hn : ¬ b0 < 0x80 := by omega
  match rest with
  | [] => simp [decodeOne, hn, h0, h0', h1, huc]
  | [_] => simp [decodeOne, hn, h0, h0', h1, huc]
  | _ :: _ :: _ => simp [decodeOne, hn, h0, h0', h1, huc]

theorem decodeOne_three (b0 b1 b2 : Nat) (rest : List Nat) (h0 : 0xE0 ≤ b0) (h0' : b0 < 0xF0)
    (h1 : isContinuation b1 = true) (h2 : isContinuation b2 = true)
    (huc : 0x800 ≤ (b0 - 0xE0) * 4096 + (b1 - 0x80) * 64 + (b2 - 0x80))
    (hs : ¬ (0xD800 ≤ (b0 - 0xE0) * 4096 + (b1 - 0x80) * 64 + (b2 - 0x80)
      ∧ (b0 - 0xE0) * 4096 + (b1 - 0x80) * 64 + (b2 - 0x80) < 0xE000)) :
    decodeOne (b0 :: b1 :: b2 :: rest)
      = some (Char.ofNat ((b0 - 0xE0) * 4096 + (b1 - 0x80) * 64 + (b2 - 0x80)), 3) := by
  have hn : ¬ b0 < 0x80 := by omega
  have hn2 : ¬ (0xC0 ≤ b0 ∧ b0 < 0xE0) := by omega
  match rest with
  | [] => simp only [decodeOne, hn, hn2, h0, h0', h1, h2, huc, hs]; simp
  | _ :: _ => simp only [decodeOne, hn, hn2, h0, h0', h1, h2, huc, hs]; simp

theorem decodeOne_four (b0 b1 b2 b3 : Nat) (rest : List Nat) (h0 : 0xF0 ≤ b0) (h0' : b0 < 0xF5)
    (h1 : isContinuation b1 = true) (h2 : isContinuation b2 = true)
    (h3 : isContinuation b3 = true)
    (huc : 0x10000 ≤ (b0 - 0xF0) * 262144 + (b1 - 0x80) * 4096 + (b2 - 0x80) * 64 + (b3 - 0x80))
    (hs : (b0 - 0xF0) * 262144 + (b1 - 0x80) * 4096 + (b2 - 0x80) * 64 + (b3 - 0x80) < 0x110000) :
    decodeOne (b0 :: b1 :: b2 :: b3 :: rest)
      = some (Char.ofNat ((b0 - 0xF0) * 262144 + (b1 - 0x80) * 4096 + (b2 - 0x80) * 64
          + (b3 - 0x80)), 4) := by
  have hn : ¬ b0 < 0x80 := by omega
  have hn2 : ¬ (0xC0 ≤ b0 ∧ b0 < 0xE0) := by omega
  have hn3 : ¬ (0xE0 ≤ b0 ∧ b0 < 0xF0) := by omega
  simp only [decodeOne, hn, hn2, hn3, h0, h0', h1, h2, h3, huc, hs]; simp

theorem isContinuation_low (m : Nat) : isContinuation (0x80 + m % 64) = true := by
  simp only [isContinuation, Bool.and_eq_true, decide_eq_true_eq]
  omega

theorem Char.toNat_valid (c : Char) :
    c.toNat < 0xD800 ∨ (0xDFFF < c.toNat ∧ c.toNat < 0x110000) := c.valid

/-- Decoding the encoding of a character gives the character back. -/
theorem decodeOne_utf8EncodeChar (c : Char) (rest : List Nat) :
    decodeOne (utf8EncodeChar c ++ rest) = some (c, (utf8EncodeChar c).length) := by
  have hv := Char.toNat_valid c
  have hc : Char.ofNat c.toNat = c := Char.ofNat_toNat c
  generalize hn : c.toNat = n at hv hc
  unfold utf8EncodeChar
  simp only [hn]
  by_cases h1 : n < 0x80
  · simp only [h1, if_true, List.singleton_append, List.length_singleton]
    rw [decodeOne_ascii n rest h1, hc]
  · by_cases h2 : n < 0x800
    · simp only [h1, h2, if_true, if_false, List.cons_append, List.nil_append,
        List.length_cons, List.length_nil]
      rw [decodeOne_two _ _ rest (by omega) (by omega) (isContinuation_low _) (by omega)]
      have : (0xC0 + n / 64 - 0xC0) * 64 + (0x80 + n % 64 - 0x80) = n := by omega
      rw [this, hc]
    · by_cases h3 : n < 0x10000
      · simp only [h1, h2, h3, if_true, if_false, List.cons_append, List.nil_append,
          List.length_cons, List.length_nil]
        have e : (0xE0 + n / 4096 - 0xE0) * 4096 + (0x80 + n / 64 % 64 - 0x80) * 64
            + (0x80 + n % 64 - 0x80) = n := by omega
        rw [decodeOne_three _ _ _ rest (by omega) (by omega) (isContinuation_low _)
          (isContinuation_low _) (by omega) (by omega)]
        rw [e, hc]
      · simp only [h1, h2, h3, if_false, List.cons_append, List.nil_append,
          List.length_cons, List.length_nil]
        have e : (0xF0 + n / 262144 - 0xF0) * 262144 + (0x80 + n / 4096 % 64 - 0x80) * 4096
            + (0x80 + n / 64 % 64 - 0x80) * 64 + (0x80 + n % 64 - 0x80) = n := by omega
        rw [decodeOne_four _ _ _ _ rest (by omega) (by omega) (isContinuation_low _)
          (isContinuation_low _) (isContinuation_low _) (by omega) (by omega)]
        rw [e, hc]

theorem utf8EncodeChar_ne_nil (c : Char) : utf8EncodeChar c ≠ [] := by
  unfold utf8EncodeChar
  simp only []
  split_ifs <;> simp

theorem decodeUtf8_utf8 (cs : List Char) (fuel : Nat) (hf : cs.length ≤ fuel) :
    decodeUtf8 fuel (cs.flatMap utf8EncodeChar) = cs := by
  induction cs generalizing fuel with
  | nil => cases fuel <;> rfl
  | cons c cs ih =>
    cases fuel with
    | zero => simp at hf
    | succ fuel =>
      rw [List.flatMap_cons]
      have hne := utf8EncodeChar_ne_nil c
      have hd := decodeOne_utf8EncodeChar c (cs.flatMap utf8EncodeChar)
      cases hb : utf8EncodeChar c ++ cs.flatMap utf8EncodeChar with
      | nil => simp [hne] at hb
      | cons b rest =>
        rw [hb] at hd
        simp only [decodeUtf8, hd]
        rw [← hb, List.drop_left, ih fuel (by simpa using hf)]

theorem length_le_length_utf8 (cs : List Char) :
    cs.length ≤ (cs.flatMap utf8EncodeChar).length := by
  induction cs with
  | nil => simp
  | cons c cs ih =>
    have h : 0 < (utf8EncodeChar c).length := List.length_pos.mpr (utf8EncodeChar_ne_nil c)
    simp only [List.flatMap_cons, List.length_append, List.length_cons]
    omega

theorem utf8EncodeChar_bom (c : Char) (rest r : List Nat)
    (h : utf8EncodeChar c ++ rest = 0xEF :: 0xBB :: 0xBF :: r) : c = Char.ofNat 0xFEFF := by
  have hc : Char.ofNat c.toNat = c := Char.ofNat_toNat c
  generalize hn : c.toNat = n at hc
  unfold utf8EncodeChar at h
  simp only [hn] at h
  by_cases h1 : n < 0x80
  · simp only [h1, if_true, List.singleton_append, List.cons.injEq] at h
    omega
  · by_cases h2 : n < 0x800
    · simp only [h1, h2, if_true, if_false, List.cons_append, List.cons.injEq] at h
      omega
    · by_cases h3 : n < 0x10000
      · simp only [h1, h2, h3, if_true, if_false, List.cons_append, List.nil_append,
          List.cons.injEq] at h
        have : n = 0xFEFF := by omega
        rw [← hc, this]
      · simp only [h1, h2, h3, if_false, List.cons_append, List.cons.injEq] at h
        omega

/-- Decoding the UTF-8 encoding of a text gives the text back, unless the text
starts with the byte-order mark U+FEFF, which the decoder drops. -/
theorem fromStdString_utf8 (s : String) (h : s.data.head? ≠ some (Char.ofNat 0xFEFF)) :
    fromStdString (utf8 s) = s := by
  cases s with
  | mk cs =>
    have hd : decodeUtf8 (cs.flatMap utf8EncodeChar).length (cs.flatMap utf8EncodeChar) = cs :=
      decodeUtf8_utf8 cs _ (length_le_length_utf8 cs)
    unfold fromStdString utf8
    split
    · rename_i r heq
      cases cs with
      | nil => simp at heq
      | cons c cs =>
        rw [List.flatMap_cons] at heq
        exact absurd (by rw [utf8EncodeChar_bom c _ r heq]; rfl) h
    · rw [hd]

/-- C23, as stated, fails. With `GitCommit = "éééééabcdeX"` and
`GitCommitRemote = "ééééézzzzz"` the first 10 characters differ, yet both
values start with the same 10 bytes (five two-byte characters), both are shown
as "ééééé" and the dialog reports a match. With `GitCommit = "012345678é"` and
`GitCommitRemote = "012345678Ā"` the values differ within their first 10
characters and within their first 10 bytes, the tenth byte being the first half
of a two-byte character in both; each half decodes to U+FFFD, so the two are
shown alike and the dialog again reports a match. -/
theorem update_dialog_counts_bytes :
    String.mk ("éééééabcdeX".data.take 10) ≠ String.mk ("ééééézzzzz".data.take 10)
    ∧ (SoftwarePanel.updateBtn_released Env.inert false
        (World.ofStore ((Store.empty.put "GitCommit" "éééééabcdeX").put "GitCommitRemote"
          "ééééézzzzz"))).world.trace.getLast?
      = some (.confirm "Local: ééééé\nRemote: ééééé\nLocal and Remote match. No update required.")
    ∧ String.mk ("012345678é".data.take 10) ≠ String.mk ("012345678Ā".data.take 10)
    ∧ (utf8 "012345678é").take 10 ≠ (utf8 "012345678Ā").take 10
    ∧ (SoftwarePanel.updateBtn_released Env.inert false
        (World.ofStore ((Store.empty.put "GitCommit" "012345678é").put "GitCommitRemote"
          "012345678Ā"))).world.trace.getLast?
      = some (.confirm
          "Local: 012345678�\nRemote: 012345678�\nLocal and Remote match. No update required.") := by
  refine ⟨by decide, by rfl, by decide, by decide, by rfl⟩

/-- C23, amended: in the update-button handler the text of the confirmation
dialog is "Local: L\nRemote: R\n" followed by "Local and Remote match. No
update required." when L = R and by "An update is available. Click OK to apply."
otherwise, L and R being the UTF-8 decodings of the first 10 bytes of
`GitCommit` and `GitCommitRemote` as stored once `gitcommit.sh` and the date
command have run (empty when absent; the value itself when it has at most 10
bytes and no byte-order mark in front). So two values with the same first 10
bytes, and two absent values, are reported as matching. For a value of ASCII
characters, as a commit hash is, L (or R) is its first 10 characters, the
whole value when it is shorter. -/
theorem update_dialog_text (env : Env) (w : World) (p : Store) (L R : String)
    (hp : p = env.shell "date '+%F %T' > /data/params/d/LastUpdateTime"
      (env.shell "/data/openpilot/gitcommit.sh" w.params))
    (hL : L = fromStdString ((utf8 (p.get "GitCommit")).take 10))
    (hR : R = fromStdString ((utf8 (p.get "GitCommitRemote")).take 10)) :
    (SoftwarePanel.updateBtn_released env false w).world.trace.getLast?
      = some (.confirm ("Local: " ++ L ++ "\nRemote: " ++ R ++ "\n"
          ++ (if L = R then "Local and Remote match. No update required."
              else "An update is available. Click OK to apply.")))
    ∧ (SoftwarePanel.updateBtn_released env true w).world.trace
      = (SoftwarePanel.updateBtn_released env false w).world.trace
          ++ [.system "/data/openpilot/gitpull.sh"]
    ∧ (p "GitCommit" = none → L = "")
    ∧ (p "GitCommitRemote" = none → R = "")
    ∧ (p "GitCommit" = none → p "GitCommitRemote" = none →
        (SoftwarePanel.updateBtn_released env false w).world.trace.getLast?
          = some (.confirm "Local: \nRemote: \nLocal and Remote match. No update required."))
    ∧ (L = R →
        (SoftwarePanel.updateBtn_released env false w).world.trace.getLast?
          = some (.confirm ("Local: " ++ L ++ "\nRemote: " ++ R ++ "\n"
              ++ "Local and Remote match. No update required.")))
    ∧ (L ≠ R →
        (SoftwarePanel.updateBtn_released env false w).world.trace.getLast?
          = some (.confirm ("Local: " ++ L ++ "\nRemote: " ++ R ++ "\n"
              ++ "An update is available. Click OK to apply.")))
    ∧ ((utf8 (p.get "GitCommit")).take 10 = (utf8 (p.get "GitCommitRemote")).take 10 →
        L = R
        ∧ (SoftwarePanel.updateBtn_released env false w).world.trace.getLast?
          = some (.confirm ("Local: " ++ L ++ "\nRemote: " ++ R ++ "\n"
              ++ "Local and Remote match. No update required.")))
    ∧ ((∀ c ∈ (p.get "GitCommit").data, c.toNat < 0x80) →
        L = String.mk ((p.get "GitCommit").data.take 10)
        ∧ ((p.get "GitCommit").length ≤ 10 → L = p.get "GitCommit"))
    ∧ ((∀ c ∈ (p.get "GitCommitRemote").data, c.toNat < 0x80) →
        R = String.mk ((p.get "GitCommitRemote").data.take 10)
        ∧ ((p.get "GitCommitRemote").length ≤ 10 → R = p.get "GitCommitRemote"))
    ∧ ((utf8 (p.get "GitCommit")).length ≤ 10 →
        (p.get "GitCommit").data.head? ≠ some (Char.ofNat 0xFEFF) → L = p.get "GitCommit")
    ∧ ((utf8 (p.get "GitCommitRemote")).length ≤ 10 →
        (p.get "GitCommitRemote").data.head? ≠ some (Char.ofNat 0xFEFF) →
        R = p.get "GitCommitRemote") := by
  have htext : (SoftwarePanel.updateBtn_released env false w).world.trace.getLast?
      = some (.confirm ("Local: " ++ L ++ "\nRemote: " ++ R ++ "\n"
          ++ (if L = R then "Local and Remote match. No update required."
              else "An update is available. Click OK to apply."))) := by
    subst hp hL hR
    by_cases h : w.params.getBool "IsOffroad" = true <;>
      simp [SoftwarePanel.updateBtn_released, substr_zero, Outcome.world, h, World.addPath,
        World.system, World.systemCall, World.confirm, World.log, String.append_assoc,
        -String.reduceAppend] <;>
      split <;> rfl
  have hnone : ∀ key, p key = none → fromStdString ((utf8 (p.get key)).take 10) = "" := by
    intro key h
    have : p.get key = "" := by simp [Store.get, h]
    rw [this]; rfl
  have hascii : ∀ s : String, (∀ c ∈ s.data, c.toNat < 0x80) →
      fromStdString ((utf8 s).take 10) = String.mk (s.data.take 10)
      ∧ (s.length ≤ 10 → fromStdString ((utf8 s).take 10) = s) := by
    intro s h
    refine ⟨fromStdString_take_ascii s 10 h, fun hlen => ?_⟩
    rw [fromStdString_take_ascii s 10 h]
    cases s with
    | mk cs => congr 1; exact List.take_of_length_le hlen
  refine ⟨htext, ?_, ?_, ?_, ?_, ?_, ?_, ?_, ?_, ?_, ?_, ?_⟩
  · simp [SoftwarePanel.updateBtn_released, substr_zero, Outcome.world, World.system,
      World.systemCall, World.confirm, World.log]
  · intro h; rw [hL]; exact hnone _ h
  · intro h; rw [hR]; exact hnone _ h
  · intro h1 h2
    have e1 : L = "" := by rw [hL]; exact hnone _ h1
    have e2 : R = "" := by rw [hR]; exact hnone _ h2
    rw [htext, e1, e2]; rfl
  · intro h; rw [htext, if_pos h]
  · intro h; rw [htext, if_neg h]
  · intro h
    have hLR : L = R := by rw [hL, hR, h]
    exact ⟨hLR, by rw [htext, if_pos hLR]⟩
  · intro h; rw [hL]; exact hascii _ h
  · intro h; rw [hR]; exact hascii _ h
  · intro h hb; rw [hL, List.take_of_length_le h]; exact fromStdString_utf8 _ hb
  · intro h hb; rw [hR, List.take_of_length_le h]; exact fromStdString_utf8 _ hb

/-- Witness for C23: two commit hashes that differ only after their tenth
character. -/
theorem update_dialog_text_witness :
    (World.sameCommitStart.params
        = Env.inert.shell "date '+%F %T' > /data/params/d/LastUpdateTime"
            (Env.inert.shell "/data/openpilot/gitcommit.sh" World.sameCommitStart.params)
      ∧ "0123456789" = fromStdString ((utf8 (World.sameCommitStart.params.get "GitCommit")).take 10)
      ∧ "0123456789"
          = fromStdString ((utf8 (World.sameCommitStart.params.get "GitCommitRemote")).take 10))
    ∧ World.sameCommitStart.params.get "GitCommit" ≠ World.sameCommitStart.params.get "GitCommitRemote"
    ∧ (SoftwarePanel.updateBtn_released Env.inert false World.sameCommitStart).world.trace.getLast?
        = some (.confirm
            "Local: 0123456789\nRemote: 0123456789\nLocal and Remote match. No update required.")
    ∧ (∀ c ∈ (World.sameCommitStart.params.get "GitCommit").data, c.toNat < 0x80)
    ∧ "0123456789" = String.mk ((World.sameCommitStart.params.get "GitCommit").data.take 10) :=
  ⟨⟨rfl, rfl, rfl⟩, by decide,
   (update_dialog_text Env.inert World.sameCommitStart World.sameCommitStart.params
      "0123456789" "0123456789" rfl rfl rfl).2.2.2.2.2.1 rfl,
   by decide,
   ((update_dialog_text Env.inert World.sameCommitStart World.sameCommitStart.params
      "0123456789" "0123456789" rfl rfl rfl).2.2.2.2.2.2.2.2.1 (by decide)).1⟩

theorem SoftwarePanel.updateLabels_button (env : Env) (w : World) :
    (SoftwarePanel.updateLabels env w).world.software.updateBtnText = "CHECK"
    ∧ (SoftwarePanel.updateLabels env w).world.software.updateBtnEnabled = true
    ∧ (SoftwarePanel.updateLabels env w).world.params = w.params
    ∧ (SoftwarePanel.updateLabels env w).world.trace = w.trace := by
  by_cases h : 19 ≤ (utf8 (w.params.get "GitRemote")).length
  · rw [SoftwarePanel.updateLabels_of_long_remote env w h]; exact ⟨rfl, rfl, rfl, rfl⟩
  · rw [SoftwarePanel.updateLabels_of_short_remote env w (by omega)]; exact ⟨rfl, rfl, rfl, rfl⟩

/-- C24: the `fileChanged` handler, for every path and with `c` the stored
`UpdateFailedCount` read as an integer (0 when it does not read as one): when
the path contains "UpdateFailedCount" and `c > 0` it sets `lastUpdateLbl` to
"failed to fetch update"; otherwise, when the path contains "LastUpdateTime",
it is `updateLabels`; otherwise it changes nothing. In both changing branches
the update button ends with the text "CHECK" and enabled, and the handler
leaves the store (and the trace) as they were. -/
theorem fileChanged_branches (env : Env) (path : String) (w : World) (c : Int)
    (hc : c = (env.getInt (w.params.get "UpdateFailedCount")).getD 0) :
    (env.getInt (w.params.get "UpdateFailedCount") = none → c = 0)
    ∧ (contains path "UpdateFailedCount" = true → 0 < c →
        SoftwarePanel.fileChanged env path w
          = .returned { w with software := { w.software with
              lastUpdateLbl := "failed to fetch update"
              updateBtnText := "CHECK"
              updateBtnEnabled := true } })
    ∧ (¬ (contains path "UpdateFailedCount" = true ∧ 0 < c) →
        contains path "LastUpdateTime" = true →
        SoftwarePanel.fileChanged env path w = SoftwarePanel.updateLabels env w
        ∧ (SoftwarePanel.fileChanged env path w).world.software.updateBtnText = "CHECK"
        ∧ (SoftwarePanel.fileChanged env path w).world.software.updateBtnEnabled = true)
    ∧ (¬ (contains path "UpdateFailedCount" = true ∧ 0 < c) →
        contains path "LastUpdateTime" = false →
        SoftwarePanel.fileChanged env path w = .returned w)
    ∧ (SoftwarePanel.fileChanged env path w).world.params = w.params
    ∧ (SoftwarePanel.fileChanged env path w).world.trace = w.trace := by
  subst hc
  have hb := SoftwarePanel.updateLabels_button env w
  refine ⟨?_, ?_, ?_, ?_, ?_, ?_⟩
  · intro h; rw [h]; rfl
  · intro h1 h2
    simp [SoftwarePanel.fileChanged, h1, h2]
  · intro h1 h2
    have hcond : (contains path "UpdateFailedCount"
        && decide ((env.getInt (w.params.get "UpdateFailedCount")).getD 0 > 0)) = false := by
      by_contra hne
      simp only [Bool.not_eq_false, Bool.and_eq_true, decide_eq_true_eq] at hne
      exact h1 hne
    have heq : SoftwarePanel.fileChanged env path w = SoftwarePanel.updateLabels env w := by
      simp [SoftwarePanel.fileChanged, hcond, h2]
    rw [heq]
    exact ⟨rfl, hb.1, hb.2.1⟩
  · intro h1 h2
    have hcond : (contains path "UpdateFailedCount"
        && decide ((env.getInt (w.params.get "UpdateFailedCount")).getD 0 > 0)) = false := by
      by_contra hne
      simp only [Bool.not_eq_false, Bool.and_eq_true, decide_eq_true_eq] at hne
      exact h1 hne
    simp [SoftwarePanel.fileChanged, hcond, h2]
  · unfold SoftwarePanel.fileChanged
    simp only []
    split
    · rfl
    · split
      · exact hb.2.2.1
      · rfl
  · unfold SoftwarePanel.fileChanged
    simp only []
    split
    · rfl
    · split
      · exact hb.2.2.2
      · rfl

/-- Witness for C24: a change of the `UpdateFailedCount` file with a stored
count of 1. -/
theorem fileChanged_branches_witness :
    ((1 : Int) = (Env.inert.getInt (World.updateFailed.params.get "UpdateFailedCount")).getD 0
      ∧ contains "/data/params/d/UpdateFailedCount" "UpdateFailedCount" = true
      ∧ (0 : Int) < 1)
    ∧ (SoftwarePanel.fileChanged Env.inert "/data/params/d/UpdateFailedCount"
        World.updateFailed).world.software.lastUpdateLbl = "failed to fetch update" :=
  have h := (fileChanged_branches Env.inert "/data/params/d/UpdateFailedCount"
    World.updateFailed 1 (by decide)).2.1 (by decide) (by decide)
  ⟨⟨by decide, by decide, by decide⟩, by rw [h]; rfl⟩

/-! ### Settings window, Tuning and Toggles layouts, wide camera -/

theorem SettingsWindow.filter_range_eq (n i : Nat) (h : i < n) :
    (List.range n).filter (fun j => decide (j = i)) = [i] := by
  induction n with
  | zero => omega
  | succ k ih =>
    rw [List.range_succ, List.filter_append]
    by_cases hk : i < k
    · have hne : ¬ k = i := by omega
      simp [ih hk, hne]
    · have hik : i = k := by omega
      subst hik
      have hnone : (List.range i).filter (fun j => decide (j = i)) = [] := by
        rw [List.filter_eq_nil_iff]
        intro a ha
        have := List.mem_range.mp ha
        simp; omega
      simp [hnone]

theorem SettingsWindow.checkedIndices_of_flags (s : SettingsWindow) (i : Nat)
    (hi : i < s.checked.length)
    (hflags : s.checked = (List.range s.checked.length).map (fun j => decide (j = i))) :
    s.checkedIndices = [i] := by
  unfold SettingsWindow.checkedIndices
  rw [← SettingsWindow.filter_range_eq s.checked.length i hi]
  apply List.filter_congr
  intro j hj
  have hjn := List.mem_range.mp hj
  rw [hflags]
  simp [List.getD_eq_getElem?_getD, hjn]

theorem SettingsWindow.construct_eq (enableMaps : Bool) (p : Store) :
    SettingsWindow.construct enableMaps p
      = { panels := SettingsWindow.panelNames enableMaps p
          checked := (List.range (SettingsWindow.panelNames enableMaps p).length).map
            (fun j => decide (j = 0))
          currentIndex := some 0 } := by
  unfold SettingsWindow.construct SettingsWindow.panelNames
  simp only []
  split <;> rfl

theorem SettingsWindow.setChecked_indices (s : SettingsWindow) (flags : List Bool) (i : Nat)
    (hi : i < flags.length) (h : s.checked = SettingsWindow.setChecked flags i) :
    s.checkedIndices = [i] := by
  apply SettingsWindow.checkedIndices_of_flags
  · rw [h]; simpa [SettingsWindow.setChecked] using hi
  · rw [h]; simp [SettingsWindow.setChecked]

theorem SettingsWindow.showEvent_eq (s : SettingsWindow) (h0 : 0 < s.panels.length) :
    s.showEvent = { panels := s.panels, checked := SettingsWindow.setChecked s.checked 0,
                    currentIndex := some 0 } := by
  simp [SettingsWindow.showEvent, h0]

theorem SettingsWindow.navReleased_eq (s : SettingsWindow) (k : Nat) (hk : k < s.panels.length) :
    s.navReleased k = { panels := s.panels, checked := SettingsWindow.setChecked s.checked k,
                        currentIndex := some k } := by
  simp [SettingsWindow.navReleased, hk]

theorem SettingsWindow.step_consistent (s : SettingsWindow) (e : SettingsWindow.Event)
    (h : s.Consistent) :
    (s.step e).Consistent ∧ (s.step e).panels = s.panels := by
  obtain ⟨hlen, i, hi, hcur, hidx⟩ := h
  cases e with
  | released k =>
    by_cases hk : k < s.panels.length
    · have heq : s.step (.released k) = s.navReleased k := rfl
      rw [heq, SettingsWindow.navReleased_eq s k hk]
      refine ⟨⟨by simp [SettingsWindow.setChecked, hlen], k, hk, rfl, ?_⟩, rfl⟩
      exact SettingsWindow.setChecked_indices _ s.checked k (by omega) rfl
    · have heq : s.step (.released k) = s := by
        simp [SettingsWindow.step, SettingsWindow.navReleased, hk]
      rw [heq]
      exact ⟨⟨hlen, i, hi, hcur, hidx⟩, rfl⟩
  | shown =>
    have h0 : 0 < s.panels.length := by omega
    have heq : s.step .shown = s.showEvent := rfl
    rw [heq, SettingsWindow.showEvent_eq s h0]
    refine ⟨⟨by simp [SettingsWindow.setChecked, hlen], 0, h0, rfl, ?_⟩, rfl⟩
    exact SettingsWindow.setChecked_indices _ s.checked 0 (by omega) rfl

theorem SettingsWindow.run_consistent (s : SettingsWindow) (events : List SettingsWindow.Event)
    (h : s.Consistent) :
    (s.run events).Consistent ∧ (s.run events).panels = s.panels := by
  induction events generalizing s with
  | nil => exact ⟨h, rfl⟩
  | cons e es ih =>
    have hs := SettingsWindow.step_consistent s e h
    have := ih (s.step e) hs.1
    simp only [SettingsWindow.run, List.foldl_cons] at this ⊢
    exact ⟨this.1, this.2.trans hs.2⟩

theorem SettingsWindow.construct_consistent (enableMaps : Bool) (p : Store) :
    (SettingsWindow.construct enableMaps p).Consistent
    ∧ (SettingsWindow.construct enableMaps p).currentIndex = some 0
    ∧ (SettingsWindow.construct enableMaps p).checkedIndices = [0]
    ∧ (SettingsWindow.construct enableMaps p).panels.take 6
        = ["Device", "Network", "Toggles", "Software", "Developer", "Tuning"] := by
  have hlen : 0 < (SettingsWindow.panelNames enableMaps p).length := by
    unfold SettingsWindow.panelNames; simp only []; split <;> simp
  have hidx : (SettingsWindow.construct enableMaps p).checkedIndices = [0] := by
    rw [SettingsWindow.construct_eq]
    apply SettingsWindow.checkedIndices_of_flags
    · simpa using hlen
    · simp
  have hpanels : (SettingsWindow.construct enableMaps p).panels.take 6
      = ["Device", "Network", "Toggles", "Software", "Developer", "Tuning"] := by
    rw [SettingsWindow.construct_eq]
    unfold SettingsWindow.panelNames; simp only []; split <;> rfl
  refine ⟨⟨?_, 0, ?_, ?_, hidx⟩, ?_, hidx, hpanels⟩
  · rw [SettingsWindow.construct_eq]; simp
  · rw [SettingsWindow.construct_eq]; exact hlen
  · rw [SettingsWindow.construct_eq]
  · rw [SettingsWindow.construct_eq]

/-- C25: after construction and after every sequence of navigation-button
releases and show events, exactly one navigation button is checked and its
index is the current index of `panel_widget`; a show event puts both at 0, the
Device panel; releasing the `i`-th button puts both at `i`; and the panels
keep the order Device, Network, Toggles, Software, Developer, Tuning. -/
theorem checked_button_is_current_panel (enableMaps : Bool) (p : Store)
    (events : List SettingsWindow.Event) :
    (∃ i, i < ((SettingsWindow.construct enableMaps p).run events).panels.length
        ∧ ((SettingsWindow.construct enableMaps p).run events).currentIndex = some i
        ∧ ((SettingsWindow.construct enableMaps p).run events).checkedIndices = [i])
    ∧ ((SettingsWindow.construct enableMaps p).currentIndex = some 0
        ∧ (SettingsWindow.construct enableMaps p).checkedIndices = [0])
    ∧ ((((SettingsWindow.construct enableMaps p).run events).showEvent).currentIndex = some 0
        ∧ (((SettingsWindow.construct enableMaps p).run events).showEvent).checkedIndices = [0])
    ∧ (∀ i, i < ((SettingsWindow.construct enableMaps p).run events).panels.length →
        (((SettingsWindow.construct enableMaps p).run events).navReleased i).currentIndex = some i
        ∧ (((SettingsWindow.construct enableMaps p).run events).navReleased i).checkedIndices = [i])
    ∧ ((SettingsWindow.construct enableMaps p).run events).panels.take 6
        = ["Device", "Network", "Toggles", "Software", "Developer", "Tuning"] := by
  obtain ⟨hc, hcur, hidx, hpanels⟩ := SettingsWindow.construct_consistent enableMaps p
  obtain ⟨hrun, hsame⟩ := SettingsWindow.run_consistent _ events hc
  obtain ⟨hlen, i, hi, hci, hii⟩ := hrun
  have h0 : 0 < ((SettingsWindow.construct enableMaps p).run events).panels.length := by omega
  refine ⟨⟨i, hi, hci, hii⟩, ⟨hcur, hidx⟩, ⟨?_, ?_⟩, ?_, by rw [hsame]; exact hpanels⟩
  · rw [SettingsWindow.showEvent_eq _ h0]
  · rw [SettingsWindow.showEvent_eq _ h0]
    exact SettingsWindow.setChecked_indices _ _ 0 (by omega) rfl
  · intro k hk
    rw [SettingsWindow.navReleased_eq _ k hk]
    exact ⟨rfl, SettingsWindow.setChecked_indices _ _ k (by omega) rfl⟩

/-- Witness for C25: from the constructed window, Software is released, the
window is shown again, then Tuning is released. -/
theorem checked_button_is_current_panel_witness :
    5 < ((SettingsWindow.construct false Store.empty).run [.released 3, .shown]).panels.length
    ∧ (((SettingsWindow.construct false Store.empty).run [.released 3, .shown]).navReleased 5).currentIndex
        = some 5
    ∧ (((SettingsWindow.construct false Store.empty).run [.released 3, .shown]).navReleased 5).checkedIndices
        = [5]
    ∧ ((SettingsWindow.construct false Store.empty).run [.released 3, .shown]).panels.get? 5
        = some "Tuning" :=
  have h := (checked_button_is_current_panel false Store.empty [.released 3, .shown]).2.2.2.1 5
    (by decide)
  ⟨by decide, h.1, h.2, by decide⟩

theorem TuningPanel.construct_cases (p : Store) :
    (p.get "LateralControlMethod" = "0" →
      TuningPanel.construct p = TuningPanel.construct (Store.empty.put "LateralControlMethod" "0"))
    ∧ (p.get "LateralControlMethod" = "1" →
      TuningPanel.construct p = TuningPanel.construct (Store.empty.put "LateralControlMethod" "1"))
    ∧ (p.get "LateralControlMethod" = "2" →
      TuningPanel.construct p = TuningPanel.construct (Store.empty.put "LateralControlMethod" "2"))
    ∧ (p.get "LateralControlMethod" ≠ "0" → p.get "LateralControlMethod" ≠ "1" →
      p.get "LateralControlMethod" ≠ "2" →
      TuningPanel.construct p = TuningPanel.construct Store.empty) := by
  have e0 : (Store.empty.put "LateralControlMethod" "0").get "LateralControlMethod" = "0" := by decide
  have e1 : (Store.empty.put "LateralControlMethod" "1").get "LateralControlMethod" = "1" := by decide
  have e2 : (Store.empty.put "LateralControlMethod" "2").get "LateralControlMethod" = "2" := by decide
  have ee : Store.empty.get "LateralControlMethod" = "" := by decide
  refine ⟨?_, ?_, ?_, ?_⟩
  · intro h; simp only [TuningPanel.construct, h, e0]
  · intro h; simp only [TuningPanel.construct, h, e1]
  · intro h; simp only [TuningPanel.construct, h, e2]
  · intro h0 h1 h2
    simp only [TuningPanel.construct, ee, if_neg h0, if_neg h1, if_neg h2]
    rfl

/-- C26: at construction the Tuning panel holds the controller-specific group
chosen by the stored `LateralControlMethod`: the six PID controls for "0", the
four INDI controls for "1", the three LQR controls for "2", in source order,
and none of them for any other value or an absent parameter; the three groups
are pairwise disjoint, and the panel is the same fixed widgets before and after
the group for every value. -/
theorem tuning_group_by_method (p : Store) :
    (p.get "LateralControlMethod" = "0" →
        TuningPanel.controllerSpecific (TuningPanel.construct p)
          = [Widget.control "PidKp", Widget.control "PidKi", Widget.control "PidKd",
             Widget.control "PidKf", Widget.control "IgnoreZone", Widget.control "ShaneFeedForward"])
    ∧ (p.get "LateralControlMethod" = "1" →
        TuningPanel.controllerSpecific (TuningPanel.construct p)
          = [Widget.control "InnerLoopGain", Widget.control "OuterLoopGain",
             Widget.control "TimeConstant", Widget.control "ActuatorEffectiveness"])
    ∧ (p.get "LateralControlMethod" = "2" →
        TuningPanel.controllerSpecific (TuningPanel.construct p)
          = [Widget.control "Scale", Widget.control "LqrKi", Widget.control "DcGain"])
    ∧ (p.get "LateralControlMethod" ≠ "0" → p.get "LateralControlMethod" ≠ "1" →
        p.get "LateralControlMethod" ≠ "2" →
        TuningPanel.controllerSpecific (TuningPanel.construct p) = [])
    ∧ (p "LateralControlMethod" = none →
        TuningPanel.controllerSpecific (TuningPanel.construct p) = [])
    ∧ (List.Disjoint ["PidKp", "PidKi", "PidKd", "PidKf", "IgnoreZone", "ShaneFeedForward"]
          ["InnerLoopGain", "OuterLoopGain", "TimeConstant", "ActuatorEffectiveness"]
        ∧ List.Disjoint ["PidKp", "PidKi", "PidKd", "PidKf", "IgnoreZone", "ShaneFeedForward"]
          ["Scale", "LqrKi", "DcGain"]
        ∧ List.Disjoint ["InnerLoopGain", "OuterLoopGain", "TimeConstant", "ActuatorEffectiveness"]
          ["Scale", "LqrKi", "DcGain"])
    ∧ TuningPanel.construct p
        = (TuningPanel.construct Store.empty).take 23
          ++ TuningPanel.controllerSpecific (TuningPanel.construct p)
          ++ (TuningPanel.construct Store.empty).drop 23 := by
  obtain ⟨c0, c1, c2, cn⟩ := TuningPanel.construct_cases p
  have hnone : p.get "LateralControlMethod" ≠ "0" → p.get "LateralControlMethod" ≠ "1" →
      p.get "LateralControlMethod" ≠ "2" →
      TuningPanel.controllerSpecific (TuningPanel.construct p) = [] := by
    intro h0 h1 h2; rw [cn h0 h1 h2]; decide
  refine ⟨?_, ?_, ?_, hnone, ?_, ⟨by simp, by simp, by simp⟩, ?_⟩
  · intro h; rw [c0 h]; decide
  · intro h; rw [c1 h]; decide
  · intro h; rw [c2 h]; decide
  · intro h
    have hget : p.get "LateralControlMethod" = "" := by simp [Store.get, h]
    exact hnone (by rw [hget]; decide) (by rw [hget]; decide) (by rw [hget]; decide)
  · by_cases h0 : p.get "LateralControlMethod" = "0"
    · rw [c0 h0]; decide
    · by_cases h1 : p.get "LateralControlMethod" = "1"
      · rw [c1 h1]; decide
      · by_cases h2 : p.get "LateralControlMethod" = "2"
        · rw [c2 h2]; decide
        · rw [cn h0 h1 h2]; decide

/-- Witness for C26: the INDI method. -/
theorem tuning_group_by_method_witness :
    (Store.empty.put "LateralControlMethod" "1").get "LateralControlMethod" = "1"
    ∧ TuningPanel.controllerSpecific
        (TuningPanel.construct (Store.empty.put "LateralControlMethod" "1"))
      = [Widget.control "InnerLoopGain", Widget.control "OuterLoopGain",
         Widget.control "TimeConstant", Widget.control "ActuatorEffectiveness"] :=
  ⟨by decide, (tuning_group_by_method (Store.empty.put "LateralControlMethod" "1")).2.1 (by decide)⟩

theorem TogglesPanel.foldl_addToggle (acc ts : List Widget) (h : acc ≠ []) :
    ts.foldl TogglesPanel.addToggle acc
      = acc ++ (ts.map fun t => [Widget.horizontal_line, t]).flatten := by
  induction ts generalizing acc with
  | nil => simp
  | cons t rest ih =>
    have hlen : acc.length ≠ 0 := by
      intro h0; exact h (List.length_eq_zero.mp h0)
    have hstep : TogglesPanel.addToggle acc t = acc ++ [Widget.horizontal_line, t] := by
      simp [TogglesPanel.addToggle, hlen]
    rw [List.foldl_cons, hstep, ih _ (by simp)]
    simp

theorem TogglesPanel.intersperse_cons (sep t : Widget) (ts : List Widget) :
    (t :: ts).intersperse sep = t :: (ts.map fun x => [sep, x]).flatten := by
  induction ts generalizing t with
  | nil => rfl
  | cons u rest ih =>
    rw [List.intersperse_cons_cons, ih u]
    simp

theorem TogglesPanel.layoutLoop_eq (ts : List Widget) :
    TogglesPanel.layoutLoop ts = ts.intersperse Widget.horizontal_line := by
  cases ts with
  | nil => rfl
  | cons t rest =>
    rw [TogglesPanel.intersperse_cons]
    simp only [TogglesPanel.layoutLoop, List.foldl_cons]
    have hfirst : TogglesPanel.addToggle [] t = [t] := rfl
    rw [hfirst, TogglesPanel.foldl_addToggle [t] rest (by simp)]
    rfl

/-- C27: the layout loop of the Toggles panel turns its toggles into the same
toggles in the same order with one horizontal line between each consecutive
pair and none before the first or after the last, so `n` toggles give
`2 n - 1` widgets; this holds for the list the constructor builds on every
hardware and build. -/
theorem toggles_layout_is_interspersed (ts : List Widget) (tici enableMaps : Bool) :
    TogglesPanel.layoutLoop ts = ts.intersperse Widget.horizontal_line
    ∧ (TogglesPanel.layoutLoop ts).length = 2 * ts.length - 1
    ∧ (TogglesPanel.layoutLoop ts).head? = ts.head?
    ∧ (TogglesPanel.layoutLoop ts).getLast? = ts.getLast?
    ∧ TogglesPanel.construct tici enableMaps
        = (TogglesPanel.toggles tici enableMaps).intersperse Widget.horizontal_line
    ∧ (TogglesPanel.construct tici enableMaps).length
        = 2 * (TogglesPanel.toggles tici enableMaps).length - 1
    ∧ (TogglesPanel.toggles tici enableMaps).length
        = 12 + (if tici then 1 else 0) + (if enableMaps then 1 else 0) := by
  have hlen : ∀ l : List Widget, (TogglesPanel.layoutLoop l).length = 2 * l.length - 1 := by
    intro l
    cases l with
    | nil => rfl
    | cons t rest =>
      rw [TogglesPanel.layoutLoop_eq, TogglesPanel.intersperse_cons]
      have : ∀ r : List Widget,
          ((r.map fun x => [Widget.horizontal_line, x]).flatten).length = 2 * r.length := by
        intro r
        induction r with
        | nil => rfl
        | cons u us ih => simp [List.flatten, ih]; omega
      simp [this]; omega
  refine ⟨TogglesPanel.layoutLoop_eq ts, hlen ts, ?_, ?_, TogglesPanel.layoutLoop_eq _, hlen _, ?_⟩
  · cases ts with
    | nil => rfl
    | cons t rest => rw [TogglesPanel.layoutLoop_eq, TogglesPanel.intersperse_cons]; rfl
  · cases ts with
    | nil => rfl
    | cons t rest =>
      simp only [TogglesPanel.layoutLoop, List.foldl_cons]
      have hfirst : TogglesPanel.addToggle [] t = [t] := rfl
      rw [hfirst, TogglesPanel.foldl_addToggle [t] rest (by simp)]
      induction rest using List.reverseRecOn with
      | nil => rfl
      | append_singleton r u _ =>
        have e1 : [t] ++ ((r ++ [u]).map fun t => [Widget.horizontal_line, t]).flatten
            = ([t] ++ (r.map fun t => [Widget.horizontal_line, t]).flatten
                ++ [Widget.horizontal_line]) ++ [u] := by simp
        have e2 : t :: (r ++ [u]) = (t :: r) ++ [u] := by simp
        rw [e1, e2, List.getLast?_concat, List.getLast?_concat]
  · cases tici <;> cases enableMaps <;> rfl

/-- C28: the extra handler of the EnableWideCamera toggle, for either state,
leaves `CalibrationParams` absent and the value of every other key as it was;
its one effect is that removal. -/
theorem wide_camera_flip_removes_calibration (state : Bool) (w : World) :
    (TogglesPanel.enableWideCamera_toggleFlipped state w).params "CalibrationParams" = none
    ∧ (TogglesPanel.enableWideCamera_toggleFlipped state w).params.get "CalibrationParams" = ""
    ∧ (∀ k, k ≠ "CalibrationParams" →
        (TogglesPanel.enableWideCamera_toggleFlipped state w).params k = w.params k)
    ∧ (TogglesPanel.enableWideCamera_toggleFlipped state w).trace
        = w.trace ++ [.paramRemove "CalibrationParams"]
    ∧ (Widget.paramControl "EnableWideCamera" "Enable use of Wide Angle Camera"
        ∈ TogglesPanel.toggles true false)
    ∧ (Widget.paramControl "EnableWideCamera" "Enable use of Wide Angle Camera"
        ∉ TogglesPanel.toggles false false) := by
  refine ⟨?_, ?_, ?_, rfl, by decide, by decide⟩
  · simp [TogglesPanel.enableWideCamera_toggleFlipped, World.remove, Store.remove]
  · simp [TogglesPanel.enableWideCamera_toggleFlipped, World.remove, Store.remove, Store.get]
  · intro k hk
    simp [TogglesPanel.enableWideCamera_toggleFlipped, World.remove, Store.remove, hk]

/-- Witness for C28: a flip to off on a store holding a calibration and
`IsMetric`. -/
theorem wide_camera_flip_removes_calibration_witness :
    "IsMetric" ≠ "CalibrationParams"
    ∧ (TogglesPanel.enableWideCamera_toggleFlipped false
        (World.ofStore ((Store.empty.put "CalibrationParams" "x").putBool "IsMetric" true))).params
          "IsMetric" = some "1"
    ∧ (TogglesPanel.enableWideCamera_toggleFlipped false
        (World.ofStore ((Store.empty.put "CalibrationParams" "x").putBool "IsMetric" true))).params
          "CalibrationParams" = none :=
  have h := wide_camera_flip_removes_calibration false
    (World.ofStore ((Store.empty.put "CalibrationParams" "x").putBool "IsMetric" true))
  ⟨by decide, (h.2.2.1 "IsMetric" (by decide)).trans (by decide), h.1⟩

end Settings
